import Mathlib

/-!
# tamanbelajar-shared: messaging, models and events

A shallow embedding of the Go package `shared` (`messaging.go`, `models.go`,
`events.go`) and the properties its specification states about it.

Conventions of the embedding:

* a Go `error` is `GoError = Option Err`, `none` being `nil`;
* a Go pointer result `*T` is `Option T`, `none` being `nil`;
* the AMQP client library, `encoding/json`, `uuid` and `time` are outside the
  package: their answers are parameters (`Amqp`, `marshal`, `Runtime`), and
  every call the package makes on the AMQP client is recorded, in order, in a
  list of `Call`s;
* `float64` is `Float64`, exact rationals plus the three special values.
-/

namespace Shared

/-! ## Errors -/

/-- Go error values met by the package. `canceled` and `deadlineExceeded` are
the two values a context reports from `Err()`; `lib` is an error value made by
a library outside the package; `errorf` is `fmt.Errorf(msg)` and `wrap` is
`fmt.Errorf(msg + "%w", inner)`. -/
inductive Err where
  | canceled
  | deadlineExceeded
  | lib (code : Nat)
  | errorf (msg : String)
  | wrap (msg : String) (inner : Err)
  deriving DecidableEq, Repr

/-- A Go `error`: `none` is `nil`. -/
abbrev GoError := Option Err

/-- The error directly wrapped by `e` (`errors.Unwrap`). -/
def Err.unwrap : Err → Option Err
  | .wrap _ inner => some inner
  | _ => none

/-! ## Time and contexts -/

/-- A `time.Time`: its year and the instant within that year. -/
structure Time where
  year : Int
  nanos : Nat
  deriving DecidableEq, Repr

/-- A `context.Context` as the package sees it: an identity, whether `Done()`
is closed, and the reason `Err()` reports once it is. -/
structure Context where
  id : Nat
  done : Bool
  cause : Err
  deriving DecidableEq, Repr

/-- The call `ctx.Err()`: `nil` until `Done()` is closed, the cause afterwards. -/
def Context.Err (ctx : Context) : GoError :=
  if ctx.done then some ctx.cause else none

/-! ## The AMQP client -/

/-- An `amqp.Table`; `nil` is the empty table. -/
abbrev Table := List (String × String)

/-- The constant `amqp.Persistent`. -/
def Persistent : Nat := 2

/-- An `amqp.Publishing`, with the fields the package sets. -/
structure Publishing where
  DeliveryMode : Nat
  ContentType : String
  MessageId : String
  Timestamp : Time
  Body : String
  deriving DecidableEq, Repr

/-- An `amqp.Delivery`: its tag and body. -/
structure Delivery where
  tag : Nat
  body : String
  deriving DecidableEq, Repr

/-- An `*amqp.Connection` handle. -/
structure Connection where
  id : Nat
  deriving DecidableEq, Repr

/-- An `*amqp.Channel` handle. -/
structure Channel where
  id : Nat
  deriving DecidableEq, Repr

/-- The calls of the AMQP client API, with their arguments in the order of the
Go signatures. `ack`, `nack` and `reject` are the three ways of settling a
delivery. -/
inductive Call where
  | dial (url : String)
  | openChannel (conn : Connection)
  | exchangeDeclare (ch : Channel) (name kind : String)
      (durable autoDelete internal noWait : Bool) (args : Table)
  | qos (ch : Channel) (prefetchCount prefetchSize : Int) (global : Bool)
  | queueDeclare (ch : Channel) (name : String)
      (durable autoDelete exclusive noWait : Bool) (args : Table)
  | queueBind (ch : Channel) (name key exchange : String) (noWait : Bool) (args : Table)
  | consume (ch : Channel) (queue consumer : String)
      (autoAck exclusive noLocal noWait : Bool) (args : Table)
  | publishWithContext (ch : Channel) (ctx : Context) (exchange key : String)
      (mandatory immediate : Bool) (msg : Publishing)
  | ack (d : Delivery)
  | nack (d : Delivery)
  | reject (d : Delivery)
  | closeChannel (ch : Channel)
  | closeConnection (conn : Connection)
  deriving DecidableEq, Repr

/-- Whether a call settles a delivery. -/
def Call.settles : Call → Bool
  | .ack _ => true
  | .nack _ => true
  | .reject _ => true
  | _ => false

/-- The answers of the AMQP client library to the calls the package makes. -/
structure Amqp where
  Dial : String → Except Err Connection
  OpenChannel : Connection → Except Err Channel
  ExchangeDeclare : Channel → String → String → Bool → Bool → Bool → Bool → Table → GoError
  Qos : Channel → Int → Int → Bool → GoError
  QueueDeclare : Channel → String → Bool → Bool → Bool → Bool → Table → GoError
  QueueBind : Channel → String → String → String → Bool → Table → GoError
  Consume : Channel → String → String → Bool → Bool → Bool → Bool → Table → GoError
  PublishWithContext : Channel → Context → String → String → Bool → Bool → Publishing → GoError

/-- What running a function of the package leaves behind: the AMQP calls it
made and the lines it logged, both in order, and the value it returned. -/
structure Outcome (α : Type) where
  calls : List Call
  logs : List String
  value : α

/-! ## Publisher -/

/-- The struct `Publisher`. -/
structure Publisher where
  conn : Connection
  channel : Channel
  exchange : String
  deriving DecidableEq, Repr

/-- The function `NewPublisher(amqpURL, exchange)`. -/
def NewPublisher (bus : Amqp) (amqpURL exchange : String) :
    Outcome (Option Publisher × GoError) :=
  match bus.Dial amqpURL with
  | .error err =>
    ⟨[.dial amqpURL], [], (none, some (.wrap "failed to connect to RabbitMQ: " err))⟩
  | .ok conn =>
    match bus.OpenChannel conn with
    | .error err =>
      ⟨[.dial amqpURL, .openChannel conn], [],
        (none, some (.wrap "failed to open channel: " err))⟩
    | .ok ch =>
      match bus.ExchangeDeclare ch exchange "topic" true false false false [] with
      | some err =>
        ⟨[.dial amqpURL, .openChannel conn,
            .exchangeDeclare ch exchange "topic" true false false false []], [],
          (none, some (.wrap "failed to declare exchange: " err))⟩
      | none =>
        ⟨[.dial amqpURL, .openChannel conn,
            .exchangeDeclare ch exchange "topic" true false false false []],
          ["Connected to RabbitMQ exchange: " ++ exchange],
          (some ⟨conn, ch, exchange⟩, none)⟩

/-- The process-wide sources `Publish` draws from: the sequence of values
`uuid.New().String()` returns, how many of them were drawn so far, and the
reading of `time.Now()`. -/
structure Runtime where
  uuid : Nat → String
  drawn : Nat
  now : Time

/-- The method `(*Publisher).Publish(ctx, routingKey, event)`; `marshal` is
`json.Marshal` at the type of the event. Returns the error and the runtime
after the call. -/
def Publisher.Publish {α : Type} (p : Publisher) (bus : Amqp)
    (marshal : α → Except Err String) (rt : Runtime)
    (ctx : Context) (routingKey : String) (event : α) : Outcome (GoError × Runtime) :=
  match marshal event with
  | .error err => ⟨[], [], (some (.wrap "failed to marshal event: " err), rt)⟩
  | .ok body =>
    let msg : Publishing :=
      { DeliveryMode := Persistent
        ContentType := "application/json"
        MessageId := rt.uuid rt.drawn
        Timestamp := rt.now
        Body := body }
    ⟨[.publishWithContext p.channel ctx p.exchange routingKey false false msg], [],
      (bus.PublishWithContext p.channel ctx p.exchange routingKey false false msg,
        { rt with drawn := rt.drawn + 1 })⟩

/-- The method `(*Publisher).Close()`. -/
def Publisher.Close (p : Publisher) (closeChannel : Channel → GoError)
    (closeConn : Connection → GoError) : Outcome GoError :=
  match closeChannel p.channel with
  | some err => ⟨[.closeChannel p.channel], [], some err⟩
  | none => ⟨[.closeChannel p.channel, .closeConnection p.conn], [], closeConn p.conn⟩

/-! ## Consumer -/

/-- The struct `Consumer`. -/
structure Consumer where
  conn : Connection
  channel : Channel
  queue : String
  deriving DecidableEq, Repr

/-- The function `NewConsumer(amqpURL, exchange, queue, routingKey, prefetch)`. -/
def NewConsumer (bus : Amqp) (amqpURL exchange queue routingKey : String) (prefetch : Int) :
    Outcome (Option Consumer × GoError) :=
  match bus.Dial amqpURL with
  | .error err =>
    ⟨[.dial amqpURL], [], (none, some (.wrap "failed to connect to RabbitMQ: " err))⟩
  | .ok conn =>
    match bus.OpenChannel conn with
    | .error err =>
      ⟨[.dial amqpURL, .openChannel conn], [],
        (none, some (.wrap "failed to open channel: " err))⟩
    | .ok ch =>
      match bus.Qos ch prefetch 0 false with
      | some err =>
        ⟨[.dial amqpURL, .openChannel conn, .qos ch prefetch 0 false], [],
          (none, some (.wrap "failed to set QoS: " err))⟩
      | none =>
        match bus.QueueDeclare ch queue true false false false [] with
        | some err =>
          ⟨[.dial amqpURL, .openChannel conn, .qos ch prefetch 0 false,
              .queueDeclare ch queue true false false false []], [],
            (none, some (.wrap "failed to declare queue: " err))⟩
        | none =>
          match bus.QueueBind ch queue routingKey exchange false [] with
          | some err =>
            ⟨[.dial amqpURL, .openChannel conn, .qos ch prefetch 0 false,
                .queueDeclare ch queue true false false false [],
                .queueBind ch queue routingKey exchange false []], [],
              (none, some (.wrap "failed to bind queue: " err))⟩
          | none =>
            ⟨[.dial amqpURL, .openChannel conn, .qos ch prefetch 0 false,
                .queueDeclare ch queue true false false false [],
                .queueBind ch queue routingKey exchange false []],
              ["Consumer bound to queue: " ++ queue ++ " (routing key: " ++ routingKey ++ ")"],
              (some ⟨conn, ch, queue⟩, none)⟩

/-- What can be observed of the loop of `Consume`, in order: the context being
canceled, a call of the handler on a delivery (the call is synchronous: the
next event comes after it has finished), and `Consume` returning. -/
inductive Event where
  | canceled
  | handler (d : Delivery)
  | returned (err : GoError)
  deriving DecidableEq, Repr

/-- Whether an event is a call of the handler. -/
def Event.isHandler : Event → Bool
  | .handler _ => true
  | _ => false

/-- The deliveries the handler was called on, in order. -/
def handled : List Event → List Delivery
  | [] => []
  | .handler d :: rest => d :: handled rest
  | _ :: rest => handled rest

/-- Whether some call of the handler comes after the cancellation in a trace. -/
def handlerAfterCancel : List Event → Bool
  | [] => false
  | .canceled :: rest => rest.any Event.isHandler
  | _ :: rest => handlerAfterCancel rest

/-- Whether some call of the handler comes after `Consume` returned. -/
def handlerAfterReturn : List Event → Bool
  | [] => false
  | .returned _ :: rest => rest.any Event.isHandler
  | _ :: rest => handlerAfterReturn rest

/-- Whether the cancellation is in a trace. -/
def hasCanceled : List Event → Bool
  | [] => false
  | .canceled :: _ => true
  | _ :: rest => hasCanceled rest

/-- Whether a return of `Consume` is in a trace. -/
def hasReturned : List Event → Bool
  | [] => false
  | .returned _ :: _ => true
  | _ :: rest => hasReturned rest

/-- One thing that happens while `Consume` is in its loop. The first three are
moves of the environment: the context is canceled, the bus sends a delivery on
the stream `msgs`, the transport closes `msgs`. The last is the loop evaluating
its `select`; `pickDone` is the choice of the Go runtime when both cases are
ready (`true`: the case `<-ctx.Done()`). -/
inductive Tick where
  | cancel
  | deliver (d : Delivery)
  | closeStream
  | select (pickDone : Bool)
  deriving DecidableEq, Repr

/-- The state of the loop of `Consume`: the context, the deliveries sent on
`msgs` and not yet received, whether `msgs` is closed, every delivery sent so
far, the deliveries the transport discarded when it closed `msgs`, the state
the handler acts on, the trace, and the value returned (`none` while the loop
runs). -/
structure LoopState (σ : Type) where
  ctx : Context
  msgs : List Delivery
  closed : Bool
  arrived : List Delivery
  dropped : List Delivery
  app : σ
  trace : List Event
  ret : Option GoError

/-- One evaluation of the `select` of `Consume`, and the body of the case taken.
The case `<-ctx.Done()` is ready when the context is done; the case `<-msgs`
is ready when a delivery is waiting or `msgs` is closed. With no case ready the
`select` blocks and the state is unchanged. -/
def selectStep {σ : Type} (handler : Delivery → σ → σ) (pickDone : Bool)
    (s : LoopState σ) : LoopState σ :=
  let msgsReady := !s.msgs.isEmpty || s.closed
  if s.ctx.done && (pickDone || !msgsReady) then
    { s with ret := some s.ctx.Err, trace := s.trace ++ [.returned s.ctx.Err] }
  else if msgsReady then
    match s.msgs with
    | [] =>
      { s with ret := some (some (.errorf "channel closed")),
               trace := s.trace ++ [.returned (some (.errorf "channel closed"))] }
    | msg :: rest =>
      { s with msgs := rest, app := handler msg s.app, trace := s.trace ++ [.handler msg] }
  else s

/-- One tick of the loop. Nothing is sent on a closed stream; the transport
closes the stream with the deliveries still waiting on it discarded, so that
the next receive on it reports the closing; and a `select` is evaluated only
while `Consume` has not returned. -/
def tick {σ : Type} (handler : Delivery → σ → σ) (s : LoopState σ) : Tick → LoopState σ
  | .cancel =>
    if s.ctx.done then s
    else { s with ctx := { s.ctx with done := true }, trace := s.trace ++ [.canceled] }
  | .deliver d =>
    if s.closed then s
    else { s with msgs := s.msgs ++ [d], arrived := s.arrived ++ [d] }
  | .closeStream => { s with closed := true, msgs := [], dropped := s.dropped ++ s.msgs }
  | .select pickDone =>
    match s.ret with
    | some _ => s
    | none => selectStep handler pickDone s

/-- The state in which the loop of `Consume` starts. -/
def loopStart {σ : Type} (ctx : Context) (app : σ) : LoopState σ :=
  { ctx := ctx, msgs := [], closed := false, arrived := [], dropped := [], app := app,
    trace := if ctx.done then [.canceled] else [], ret := none }

/-- The method `(*Consumer).Consume(ctx, handler)`, run against the ticks that
happen while it is in its loop. -/
def Consumer.Consume {σ : Type} (c : Consumer) (bus : Amqp) (ctx : Context)
    (handler : Delivery → σ → σ) (app : σ) (ticks : List Tick) : Outcome (LoopState σ) :=
  match bus.Consume c.channel c.queue "" false false false false [] with
  | some err =>
    ⟨[.consume c.channel c.queue "" false false false false []], [],
      { loopStart ctx app with
          ret := some (some (.wrap "failed to register consumer: " err))
          trace := (loopStart ctx app).trace ++
            [.returned (some (.wrap "failed to register consumer: " err))] }⟩
  | none =>
    ⟨[.consume c.channel c.queue "" false false false false []],
      ["Started consuming from queue: " ++ c.queue],
      ticks.foldl (tick handler) (loopStart ctx app)⟩

/-- The deliveries the bus sends on the stream during the ticks: those sent
before the stream is closed. -/
def sent : List Tick → List Delivery
  | [] => []
  | .deliver d :: rest => d :: sent rest
  | .closeStream :: _ => []
  | _ :: rest => sent rest

/-- What holds of the loop of `Consume` after every tick, for a loop started on
the handler state `app₀` with a context whose cause is `cause`: the cause is
unchanged; the deliveries handled, followed by those still waiting and those
discarded, are those that arrived, none being discarded from an open stream and
none waiting on a closed one; the handler state is the result of the calls of
the handler; the
cancellation is in the trace exactly when the context is done; while the loop
runs no return is in the trace; no call of the handler follows a return; and a
value returned is the cause of a context that is done, or the error
`channel closed` on a stream that is closed and drained. -/
def LoopInv {σ : Type} (handler : Delivery → σ → σ) (app₀ : σ) (cause : Err)
    (s : LoopState σ) : Prop :=
  s.ctx.cause = cause
    ∧ (handled s.trace ++ s.msgs ++ s.dropped = s.arrived
        ∧ (s.closed = false → s.dropped = [])
        ∧ (s.closed = true → s.msgs = []))
    ∧ s.app = (handled s.trace).foldl (fun a d => handler d a) app₀
    ∧ hasCanceled s.trace = s.ctx.done
    ∧ (s.ret = none → hasReturned s.trace = false)
    ∧ handlerAfterReturn s.trace = false
    ∧ (∀ r, s.ret = some r →
        (r = some cause ∧ s.ctx.done = true)
          ∨ (r = some (.errorf "channel closed") ∧ s.closed = true ∧ s.msgs = []))

/-- The method `(*Consumer).Close()`. -/
def Consumer.Close (c : Consumer) (closeChannel : Channel → GoError)
    (closeConn : Connection → GoError) : Outcome GoError :=
  match closeChannel c.channel with
  | some err => ⟨[.closeChannel c.channel], [], some err⟩
  | none => ⟨[.closeChannel c.channel, .closeConnection c.conn], [], closeConn c.conn⟩

/-! ## Numbers -/

/-- A Go `float64`: an exact rational, or one of the three special values. -/
inductive Float64 where
  | nan
  | negInf
  | posInf
  | finite (q : ℚ)
  deriving DecidableEq

/-- The comparison `x >= k` against an integer literal; false on NaN. -/
def Float64.ge (x : Float64) (k : Int) : Bool :=
  match x with
  | .nan => false
  | .negInf => false
  | .posInf => true
  | .finite q => decide ((k : ℚ) ≤ q)

/-- The comparison `x > k` against an integer literal; false on NaN. -/
def Float64.gt (x : Float64) (k : Int) : Bool :=
  match x with
  | .nan => false
  | .negInf => false
  | .posInf => true
  | .finite q => decide ((k : ℚ) < q)

/-! ## Models: the gorm declarations of `models.go` -/

/-- The expression of a `check:` tag. -/
inductive CheckExpr where
  | ge (column : String) (k : Int)
  | gt (column : String) (k : Int)
  | isIn (column : String) (values : List String)
  deriving DecidableEq, Repr

/-- One setting of a `gorm:"..."` struct tag. A `uniqueIndex` setting carries
the index name when one is written after the colon. -/
inductive Tag where
  | type (t : String)
  | primaryKey
  | notNull
  | index
  | uniqueIndex (name : Option String)
  | default (v : String)
  | check (e : CheckExpr)
  | foreignKey (field : String)
  deriving DecidableEq, Repr

/-- A field of a model struct: its Go name, the column gorm names after it
(`none` for a relation, which has no column), and its tag settings. -/
structure Field where
  name : String
  column : Option String
  tags : List Tag
  deriving DecidableEq, Repr

/-- A value stored in a column. -/
inductive Value where
  | null
  | text (s : String)
  | real (x : Float64)
  | time (t : Time)
  | int (n : Int)
  deriving DecidableEq

/-- A row of a table: the value of each column. -/
abbrev Row := String → Value

/-- The constant `TransactionTypeTopup`. -/
def TransactionTypeTopup : String := "topup"
/-- The constant `TransactionTypeTransferOut`. -/
def TransactionTypeTransferOut : String := "transfer_out"
/-- The constant `TransactionTypeTransferIn`. -/
def TransactionTypeTransferIn : String := "transfer_in"
/-- The constant `TransactionTypePayment`. -/
def TransactionTypePayment : String := "payment"

/-- The constant `TransactionStatusPending`. -/
def TransactionStatusPending : String := "pending"
/-- The constant `TransactionStatusCompleted`. -/
def TransactionStatusCompleted : String := "completed"
/-- The constant `TransactionStatusFailed`. -/
def TransactionStatusFailed : String := "failed"
/-- The constant `TransactionStatusExpired`. -/
def TransactionStatusExpired : String := "expired"

/-- The struct `Wallet` (the relation `User` holds no value of the row). -/
structure Wallet where
  ID : String
  UserID : String
  Balance : Float64
  Version : Int
  CreatedAt : Time
  UpdatedAt : Time

/-- The declaration of `Wallet`, field by field. -/
def walletFields : List Field :=
  [ ⟨"ID", some "id", [.type "text", .primaryKey]⟩,
    ⟨"UserID", some "user_id", [.type "text", .uniqueIndex none, .notNull]⟩,
    ⟨"Balance", some "balance", [.notNull, .default "0", .check (.ge "balance" 0)]⟩,
    ⟨"Version", some "version", [.notNull, .default "0"]⟩,
    ⟨"CreatedAt", some "created_at", []⟩,
    ⟨"UpdatedAt", some "updated_at", []⟩,
    ⟨"User", none, [.foreignKey "UserID"]⟩ ]

/-- The row of a `Wallet`. -/
def Wallet.toRow (w : Wallet) : Row := fun column =>
  if column = "id" then .text w.ID
  else if column = "user_id" then .text w.UserID
  else if column = "balance" then .real w.Balance
  else if column = "version" then .int w.Version
  else if column = "created_at" then .time w.CreatedAt
  else if column = "updated_at" then .time w.UpdatedAt
  else .null

/-- The struct `Transaction` (the relation `User` holds no value of the row).
The field `Type` is written `Type_`. -/
structure Transaction where
  ID : String
  UserID : String
  Type_ : String
  Amount : Float64
  Status : String
  FromID : Option String
  ToID : Option String
  From : String
  To : String
  MerchantID : Option String
  Description : Option String
  IdempotencyKey : Option String
  ExpiresAt : Option Time
  CreatedAt : Time
  UpdatedAt : Time
  CompletedAt : Option Time

/-- The declaration of `Transaction`, field by field. -/
def transactionFields : List Field :=
  [ ⟨"ID", some "id", [.type "text", .primaryKey]⟩,
    ⟨"UserID", some "user_id", [.type "text", .notNull, .index]⟩,
    ⟨"Type", some "type",
      [.notNull, .check (.isIn "type" ["topup", "transfer_out", "transfer_in", "payment"])]⟩,
    ⟨"Amount", some "amount", [.notNull, .check (.gt "amount" 0)]⟩,
    ⟨"Status", some "status",
      [.notNull, .default "pending",
        .check (.isIn "status" ["pending", "completed", "failed", "expired"])]⟩,
    ⟨"FromID", some "from_id", [.type "text", .index]⟩,
    ⟨"ToID", some "to_id", [.type "text", .index]⟩,
    ⟨"From", some "from", [.notNull]⟩,
    ⟨"To", some "to", [.notNull]⟩,
    ⟨"MerchantID", some "merchant_id", [.index]⟩,
    ⟨"Description", some "description", []⟩,
    ⟨"IdempotencyKey", some "idempotency_key", [.uniqueIndex (some "idx_user_idempotency")]⟩,
    ⟨"ExpiresAt", some "expires_at", [.index]⟩,
    ⟨"CreatedAt", some "created_at", [.index]⟩,
    ⟨"UpdatedAt", some "updated_at", []⟩,
    ⟨"CompletedAt", some "completed_at", []⟩,
    ⟨"User", none, [.foreignKey "UserID"]⟩ ]

/-- The column value of an optional text field: `NULL` for a nil pointer. -/
def optText : Option String → Value
  | none => .null
  | some s => .text s

/-- The column value of an optional time field: `NULL` for a nil pointer. -/
def optTime : Option Time → Value
  | none => .null
  | some t => .time t

/-- The row of a `Transaction`. -/
def Transaction.toRow (t : Transaction) : Row := fun column =>
  if column = "id" then .text t.ID
  else if column = "user_id" then .text t.UserID
  else if column = "type" then .text t.Type_
  else if column = "amount" then .real t.Amount
  else if column = "status" then .text t.Status
  else if column = "from_id" then optText t.FromID
  else if column = "to_id" then optText t.ToID
  else if column = "from" then .text t.From
  else if column = "to" then .text t.To
  else if column = "merchant_id" then optText t.MerchantID
  else if column = "description" then optText t.Description
  else if column = "idempotency_key" then optText t.IdempotencyKey
  else if column = "expires_at" then optTime t.ExpiresAt
  else if column = "created_at" then .time t.CreatedAt
  else if column = "updated_at" then .time t.UpdatedAt
  else if column = "completed_at" then optTime t.CompletedAt
  else .null

/-- The check expressions declared on a model, in field order. -/
def checksOf (fields : List Field) : List CheckExpr :=
  fields.flatMap fun f => f.tags.filterMap fun
    | .check e => some e
    | _ => none

/-- Whether a row passes a check expression. As in SQL, a check is violated only
when the expression is false: on `NULL` it is unknown and the row passes. A
number never equals a text, and orders below every text. -/
def CheckExpr.passes (r : Row) : CheckExpr → Bool
  | .ge column k =>
    match r column with
    | .real x => x.ge k
    | .int n => decide (k ≤ n)
    | _ => true
  | .gt column k =>
    match r column with
    | .real x => x.gt k
    | .int n => decide (k < n)
    | _ => true
  | .isIn column values =>
    match r column with
    | .text s => values.contains s
    | .null => true
    | _ => false

/-- Whether a row passes every check constraint declared on a model. -/
def passesChecks (fields : List Field) (r : Row) : Bool :=
  (checksOf fields).all fun e => e.passes r

/-- The columns of the unique index of a given name: the columns of the fields
whose tag has `uniqueIndex:<name>`, in field order. Fields that share the name
form one composite index. -/
def uniqueIndexColumns (fields : List Field) (name : String) : List String :=
  (fields.filter fun f => f.tags.contains (.uniqueIndex (some name))).filterMap fun f => f.column

/-- Whether a unique index over the given columns rejects having both rows in
the table: every indexed column holds the same non-NULL value in both. A row
with `NULL` in an indexed column conflicts with no row. -/
def uniqueConflict (columns : List String) (r₁ r₂ : Row) : Bool :=
  columns.all fun c => r₁ c != .null && r₁ c == r₂ c

/-- Whether the index `idx_user_idempotency` rejects two transactions. -/
def idempotencyConflict (t₁ t₂ : Transaction) : Bool :=
  uniqueConflict (uniqueIndexColumns transactionFields "idx_user_idempotency") t₁.toRow t₂.toRow

/-! ## Events: the structs of `events.go` and their JSON encoding -/

/-- The constant `EventUserCreated`. -/
def EventUserCreated : String := "user.created"
/-- The constant `EventUserUpdated`. -/
def EventUserUpdated : String := "user.updated"
/-- The constant `EventTransferInitiated`. -/
def EventTransferInitiated : String := "transfer.initiated"
/-- The constant `EventTransferCompleted`. -/
def EventTransferCompleted : String := "transfer.completed"
/-- The constant `EventTransferFailed`. -/
def EventTransferFailed : String := "transfer.failed"

/-- The Go values held by the fields of the event structs. -/
inductive GoValue where
  | string (s : String)
  | float64 (x : Float64)
  | time (t : Time)
  deriving DecidableEq

/-- A `json:"name,options"` struct tag: the name, and whether `omitempty` is
among the options. -/
structure JsonTag where
  name : String
  omitempty : Bool
  deriving DecidableEq, Repr

/-- A field of a struct handed to `json.Marshal`: its Go name, its `json` tag
when it has one, and its value. -/
structure StructField where
  name : String
  tag : Option JsonTag
  value : GoValue

/-- A JSON value an event field encodes to: a string, a number, or the string
holding a time in RFC 3339. -/
inductive Json where
  | string (s : String)
  | number (q : ℚ)
  | time (t : Time)
  deriving DecidableEq

/-- A JSON object: its members in order. -/
abbrev JsonObject := List (String × Json)

/-- Whether `omitempty` regards the value as empty: the empty string and the
number zero are, a `time.Time` never is. -/
def GoValue.isEmpty : GoValue → Bool
  | .string s => s == ""
  | .float64 x => x == .finite 0
  | .time _ => false

/-- The JSON encoding of a field value. A NaN or an infinity is an unsupported
value, and a time encodes only when its year is within 0 and 9999. -/
def GoValue.encode : GoValue → Except Err Json
  | .string s => .ok (.string s)
  | .float64 (.finite q) => .ok (.number q)
  | .float64 _ => .error (.errorf "json: unsupported value")
  | .time t =>
    if 0 ≤ t.year ∧ t.year ≤ 9999 then .ok (.time t)
    else .error (.errorf "Time.MarshalJSON: year outside of range [0,9999]")

/-- The key a field is encoded under, or `none` when the field is left out: a
field tagged `-` is skipped, so is an empty value under `omitempty`, and the
key is the tag name, or the Go name when the tag gives none. -/
def StructField.key (f : StructField) : Option String :=
  match f.tag with
  | none => some f.name
  | some tag =>
    if tag.name = "-" then none
    else if tag.omitempty && f.value.isEmpty then none
    else some (if tag.name = "" then f.name else tag.name)

/-- The encoding of the fields of a struct, in declaration order, stopping at
the first value that does not encode. -/
def encodeFields : List StructField → Except Err JsonObject
  | [] => .ok []
  | f :: rest =>
    match f.key with
    | none => encodeFields rest
    | some k =>
      match f.value.encode with
      | .error err => .error err
      | .ok v =>
        match encodeFields rest with
        | .error err => .error err
        | .ok members => .ok ((k, v) :: members)

/-- The keys of the object produced, when one is produced. -/
def keysOf : Except Err JsonObject → Option (List String)
  | .ok members => some (members.map Prod.fst)
  | .error _ => none

/-- The struct `UserCreatedEvent`. -/
structure UserCreatedEvent where
  EventID : String
  EventType : String
  Timestamp : Time
  UserID : String
  Email : String
  Name : String

/-- The fields of `UserCreatedEvent` with their `json` tags. -/
def UserCreatedEvent.fields (e : UserCreatedEvent) : List StructField :=
  [ ⟨"EventID", some ⟨"eventId", false⟩, .string e.EventID⟩,
    ⟨"EventType", some ⟨"eventType", false⟩, .string e.EventType⟩,
    ⟨"Timestamp", some ⟨"timestamp", false⟩, .time e.Timestamp⟩,
    ⟨"UserID", some ⟨"userId", false⟩, .string e.UserID⟩,
    ⟨"Email", some ⟨"email", false⟩, .string e.Email⟩,
    ⟨"Name", some ⟨"name", false⟩, .string e.Name⟩ ]

/-- The struct `TransferInitiatedEvent`. -/
structure TransferInitiatedEvent where
  EventID : String
  EventType : String
  Timestamp : Time
  TransactionID : String
  FromUserID : String
  ToUserID : String
  Amount : Float64

/-- The fields of `TransferInitiatedEvent` with their `json` tags. -/
def TransferInitiatedEvent.fields (e : TransferInitiatedEvent) : List StructField :=
  [ ⟨"EventID", some ⟨"eventId", false⟩, .string e.EventID⟩,
    ⟨"EventType", some ⟨"eventType", false⟩, .string e.EventType⟩,
    ⟨"Timestamp", some ⟨"timestamp", false⟩, .time e.Timestamp⟩,
    ⟨"TransactionID", some ⟨"transactionId", false⟩, .string e.TransactionID⟩,
    ⟨"FromUserID", some ⟨"fromUserId", false⟩, .string e.FromUserID⟩,
    ⟨"ToUserID", some ⟨"toUserId", false⟩, .string e.ToUserID⟩,
    ⟨"Amount", some ⟨"amount", false⟩, .float64 e.Amount⟩ ]

/-- The struct `TransferCompletedEvent`. -/
structure TransferCompletedEvent where
  EventID : String
  EventType : String
  Timestamp : Time
  TransactionID : String
  FromUserID : String
  ToUserID : String
  Amount : Float64

/-- The fields of `TransferCompletedEvent` with their `json` tags. -/
def TransferCompletedEvent.fields (e : TransferCompletedEvent) : List StructField :=
  [ ⟨"EventID", some ⟨"eventId", false⟩, .string e.EventID⟩,
    ⟨"EventType", some ⟨"eventType", false⟩, .string e.EventType⟩,
    ⟨"Timestamp", some ⟨"timestamp", false⟩, .time e.Timestamp⟩,
    ⟨"TransactionID", some ⟨"transactionId", false⟩, .string e.TransactionID⟩,
    ⟨"FromUserID", some ⟨"fromUserId", false⟩, .string e.FromUserID⟩,
    ⟨"ToUserID", some ⟨"toUserId", false⟩, .string e.ToUserID⟩,
    ⟨"Amount", some ⟨"amount", false⟩, .float64 e.Amount⟩ ]

/-- The struct `TransferFailedEvent`. -/
structure TransferFailedEvent where
  EventID : String
  EventType : String
  Timestamp : Time
  TransactionID : String
  FromUserID : String
  ToUserID : String
  Amount : Float64
  Reason : String

/-- The fields of `TransferFailedEvent` with their `json` tags. -/
def TransferFailedEvent.fields (e : TransferFailedEvent) : List StructField :=
  [ ⟨"EventID", some ⟨"eventId", false⟩, .string e.EventID⟩,
    ⟨"EventType", some ⟨"eventType", false⟩, .string e.EventType⟩,
    ⟨"Timestamp", some ⟨"timestamp", false⟩, .time e.Timestamp⟩,
    ⟨"TransactionID", some ⟨"transactionId", false⟩, .string e.TransactionID⟩,
    ⟨"FromUserID", some ⟨"fromUserId", false⟩, .string e.FromUserID⟩,
    ⟨"ToUserID", some ⟨"toUserId", false⟩, .string e.ToUserID⟩,
    ⟨"Amount", some ⟨"amount", false⟩, .float64 e.Amount⟩,
    ⟨"Reason", some ⟨"reason", false⟩, .string e.Reason⟩ ]

/-- The call `json.Marshal(e)` on a `UserCreatedEvent`. -/
def UserCreatedEvent.marshal (e : UserCreatedEvent) : Except Err JsonObject :=
  encodeFields e.fields

/-- The call `json.Marshal(e)` on a `TransferInitiatedEvent`. -/
def TransferInitiatedEvent.marshal (e : TransferInitiatedEvent) : Except Err JsonObject :=
  encodeFields e.fields

/-- The call `json.Marshal(e)` on a `TransferCompletedEvent`. -/
def TransferCompletedEvent.marshal (e : TransferCompletedEvent) : Except Err JsonObject :=
  encodeFields e.fields

/-- The call `json.Marshal(e)` on a `TransferFailedEvent`. -/
def TransferFailedEvent.marshal (e : TransferFailedEvent) : Except Err JsonObject :=
  encodeFields e.fields

/-- Whether a time lies in the years `Time.MarshalJSON` encodes. -/
def Time.encodable (t : Time) : Bool :=
  decide (0 ≤ t.year) && decide (t.year ≤ 9999)

/-- Whether a float is a number, neither NaN nor an infinity. -/
def Float64.isFinite : Float64 → Bool
  | .finite _ => true
  | _ => false

/-! ## Properties -/

/-! ## Sample inputs -/

/-- A bus on which every call succeeds. -/
def okBus : Amqp where
  Dial := fun _ => .ok ⟨1⟩
  OpenChannel := fun _ => .ok ⟨7⟩
  ExchangeDeclare := fun _ _ _ _ _ _ _ _ => none
  Qos := fun _ _ _ _ => none
  QueueDeclare := fun _ _ _ _ _ _ _ => none
  QueueBind := fun _ _ _ _ _ _ => none
  Consume := fun _ _ _ _ _ _ _ _ => none
  PublishWithContext := fun _ _ _ _ _ _ _ => none

/-- A bus that accepts connections and channels and refuses everything else
with the error `lib 9`. -/
def refusingBus : Amqp where
  Dial := fun _ => .ok ⟨1⟩
  OpenChannel := fun _ => .ok ⟨7⟩
  ExchangeDeclare := fun _ _ _ _ _ _ _ _ => some (.lib 9)
  Qos := fun _ _ _ _ => some (.lib 9)
  QueueDeclare := fun _ _ _ _ _ _ _ => some (.lib 9)
  QueueBind := fun _ _ _ _ _ _ => some (.lib 9)
  Consume := fun _ _ _ _ _ _ _ _ => some (.lib 9)
  PublishWithContext := fun _ _ _ _ _ _ _ => some (.lib 9)

/-- A runtime whose identifiers are `x`, `xx`, `xxx`, ... -/
def sampleRuntime : Runtime where
  uuid := fun n => String.mk (List.replicate (n + 1) 'x')
  drawn := 0
  now := ⟨2024, 0⟩

/-- A context that is not canceled. -/
def liveContext : Context := ⟨0, false, .canceled⟩

/-- A publisher on the exchange `events`. -/
def samplePublisher : Publisher := ⟨⟨1⟩, ⟨7⟩, "events"⟩

/-- A consumer of the queue `wallet`. -/
def sampleConsumer : Consumer := ⟨⟨1⟩, ⟨7⟩, "wallet"⟩

/-- A marshaller of strings that accepts every string but `bad`. -/
def sampleMarshal (s : String) : Except Err String :=
  if s = "bad" then .error (.lib 3) else .ok s

/-- A handler that counts its calls. -/
def countingHandler (_ : Delivery) (n : Nat) : Nat := n + 1

/-- A pending transfer of 5 with the given identifier, owner and idempotency key. -/
def sampleTransaction (id user : String) (key : Option String) : Transaction where
  ID := id
  UserID := user
  Type_ := TransactionTypeTransferOut
  Amount := .finite 5
  Status := TransactionStatusPending
  FromID := none
  ToID := none
  From := user
  To := "merchant"
  MerchantID := none
  Description := none
  IdempotencyKey := key
  ExpiresAt := none
  CreatedAt := ⟨2024, 0⟩
  UpdatedAt := ⟨2024, 0⟩
  CompletedAt := none

/-! ## Properties of the publisher -/

/-- C3: for every event whose serialization succeeds, `Publish` makes exactly
one call on the transport: a publish on the publisher's channel with the
caller's context, the publisher's exchange and the caller's routing key,
neither mandatory nor immediate, of a message that is persistent, of content
type `application/json`, whose body is the serialization, whose identifier is
the next value of the identifier generator (which the call consumes) and whose
timestamp is the current time. -/
theorem Publish_hands_one_message {α : Type} (p : Publisher) (bus : Amqp)
    (marshal : α → Except Err String) (rt : Runtime) (ctx : Context)
    (routingKey : String) (event : α) (body : String)
    (h : marshal event = .ok body) :
    (p.Publish bus marshal rt ctx routingKey event).calls =
        [.publishWithContext p.channel ctx p.exchange routingKey false false
          { DeliveryMode := 2, ContentType := "application/json",
            MessageId := rt.uuid rt.drawn, Timestamp := rt.now, Body := body }]
      ∧ Persistent = 2
      ∧ (p.Publish bus marshal rt ctx routingKey event).value.2.drawn = rt.drawn + 1
      ∧ (p.Publish bus marshal rt ctx routingKey event).value.2.uuid = rt.uuid := by
  simp [Publisher.Publish, h, Persistent]

/-- Witness of C3 on the sample publisher. -/
theorem Publish_hands_one_message_witness :
    sampleMarshal "hello" = .ok "hello" ∧
    ((samplePublisher.Publish okBus sampleMarshal sampleRuntime liveContext
        "user.created" "hello").calls =
        [.publishWithContext samplePublisher.channel liveContext samplePublisher.exchange
          "user.created" false false
          { DeliveryMode := 2, ContentType := "application/json",
            MessageId := sampleRuntime.uuid sampleRuntime.drawn,
            Timestamp := sampleRuntime.now, Body := "hello" }]
      ∧ Persistent = 2
      ∧ (samplePublisher.Publish okBus sampleMarshal sampleRuntime liveContext
          "user.created" "hello").value.2.drawn = sampleRuntime.drawn + 1
      ∧ (samplePublisher.Publish okBus sampleMarshal sampleRuntime liveContext
          "user.created" "hello").value.2.uuid = sampleRuntime.uuid) :=
  ⟨by simp [sampleMarshal],
    Publish_hands_one_message samplePublisher okBus sampleMarshal sampleRuntime liveContext
      "user.created" "hello" "hello" (by simp [sampleMarshal])⟩

/-- C4: `Publish` reports serialization and transport errors to its caller. If
serialization fails it returns an error wrapping the serialization error and
calls nothing on the transport; if serialization succeeds it returns what the
transport publish returned; so it returns nil exactly when serialization
succeeded and the transport publish returned nil. -/
theorem Publish_propagates_errors {α : Type} (p : Publisher) (bus : Amqp)
    (marshal : α → Except Err String) (rt : Runtime) (ctx : Context)
    (routingKey : String) (event : α) :
    (∀ err, marshal event = .error err →
        (p.Publish bus marshal rt ctx routingKey event).value.1
            = some (.wrap "failed to marshal event: " err)
          ∧ ((p.Publish bus marshal rt ctx routingKey event).value.1.bind Err.unwrap)
            = some err
          ∧ (p.Publish bus marshal rt ctx routingKey event).calls = [])
      ∧ (∀ body, marshal event = .ok body →
        (p.Publish bus marshal rt ctx routingKey event).value.1
          = bus.PublishWithContext p.channel ctx p.exchange routingKey false false
              { DeliveryMode := Persistent, ContentType := "application/json",
                MessageId := rt.uuid rt.drawn, Timestamp := rt.now, Body := body })
      ∧ ((p.Publish bus marshal rt ctx routingKey event).value.1 = none ↔
        ∃ body, marshal event = .ok body ∧
          bus.PublishWithContext p.channel ctx p.exchange routingKey false false
              { DeliveryMode := Persistent, ContentType := "application/json",
                MessageId := rt.uuid rt.drawn, Timestamp := rt.now, Body := body } = none) := by
  cases h : marshal event with
  | error e => simp [Publisher.Publish, h, Err.unwrap]
  | ok b => simp [Publisher.Publish, h]

/-- Witness of C4: on the sample marshaller, the string `bad` fails to
serialize and nothing is sent, and the string `hello` is sent and refused by
the transport. -/
theorem Publish_propagates_errors_witness :
    (samplePublisher.Publish refusingBus sampleMarshal sampleRuntime liveContext
        "user.created" "bad").value.1 = some (.wrap "failed to marshal event: " (.lib 3))
      ∧ (samplePublisher.Publish refusingBus sampleMarshal sampleRuntime liveContext
        "user.created" "bad").calls = []
      ∧ (samplePublisher.Publish refusingBus sampleMarshal sampleRuntime liveContext
        "user.created" "hello").value.1 = some (.lib 9) := by
  have h := Publish_propagates_errors samplePublisher refusingBus sampleMarshal sampleRuntime
    liveContext "user.created" "bad"
  have h2 := Publish_propagates_errors samplePublisher refusingBus sampleMarshal sampleRuntime
    liveContext "user.created" "hello"
  refine ⟨(h.1 (.lib 3) (by simp [sampleMarshal])).1,
    (h.1 (.lib 3) (by simp [sampleMarshal])).2.2, ?_⟩
  rw [h2.2.1 "hello" (by simp [sampleMarshal])]
  rfl

/-- C10: `NewPublisher` connects, opens a channel and declares the exchange,
in that order. The declaration is of the given name, of kind `topic`, durable,
not auto-deleted, not internal, and waits for the reply. The first step that
fails ends the function with a nil publisher and an error wrapping the error of
that step, and no later step is made. A publisher is returned, with a nil
error, exactly when the three steps succeed, and every call `Publish` makes
through it is a publish addressed to the exchange that was declared. -/
theorem NewPublisher_declares_topic_exchange (bus : Amqp) (amqpURL exchange : String) :
    (∀ err, bus.Dial amqpURL = .error err →
        (NewPublisher bus amqpURL exchange).value
            = (none, some (.wrap "failed to connect to RabbitMQ: " err))
          ∧ (NewPublisher bus amqpURL exchange).calls = [.dial amqpURL])
      ∧ (∀ conn err, bus.Dial amqpURL = .ok conn → bus.OpenChannel conn = .error err →
        (NewPublisher bus amqpURL exchange).value
            = (none, some (.wrap "failed to open channel: " err))
          ∧ (NewPublisher bus amqpURL exchange).calls = [.dial amqpURL, .openChannel conn])
      ∧ (∀ conn ch err, bus.Dial amqpURL = .ok conn → bus.OpenChannel conn = .ok ch →
        bus.ExchangeDeclare ch exchange "topic" true false false false [] = some err →
        (NewPublisher bus amqpURL exchange).value
            = (none, some (.wrap "failed to declare exchange: " err))
          ∧ (NewPublisher bus amqpURL exchange).calls
            = [.dial amqpURL, .openChannel conn,
                .exchangeDeclare ch exchange "topic" true false false false []])
      ∧ (∀ conn ch, bus.Dial amqpURL = .ok conn → bus.OpenChannel conn = .ok ch →
        bus.ExchangeDeclare ch exchange "topic" true false false false [] = none →
        (NewPublisher bus amqpURL exchange).value = (some ⟨conn, ch, exchange⟩, none)
          ∧ (NewPublisher bus amqpURL exchange).calls
            = [.dial amqpURL, .openChannel conn,
                .exchangeDeclare ch exchange "topic" true false false false []])
      ∧ ((∃ p, (NewPublisher bus amqpURL exchange).value = (some p, none)) ↔
        ∃ conn ch, bus.Dial amqpURL = .ok conn ∧ bus.OpenChannel conn = .ok ch ∧
          bus.ExchangeDeclare ch exchange "topic" true false false false [] = none)
      ∧ ((NewPublisher bus amqpURL exchange).value.1 = none ↔
        (NewPublisher bus amqpURL exchange).value.2 ≠ none)
      ∧ (∀ p, (NewPublisher bus amqpURL exchange).value.1 = some p →
        p.exchange = exchange ∧
        ∀ (β : Type) (bus2 : Amqp) (marshal : β → Except Err String) (rt : Runtime)
          (ctx : Context) (routingKey : String) (event : β),
          ∀ c ∈ (p.Publish bus2 marshal rt ctx routingKey event).calls,
            ∃ msg, c = .publishWithContext p.channel ctx exchange routingKey false false msg) := by
  refine ⟨?_, ?_, ?_, ?_, ?_, ?_, ?_⟩
  · intro err h1
    simp [NewPublisher, h1]
  · intro conn err h1 h2
    simp [NewPublisher, h1, h2]
  · intro conn ch err h1 h2 h3
    simp [NewPublisher, h1, h2, h3]
  · intro conn ch h1 h2 h3
    simp [NewPublisher, h1, h2, h3]
  · constructor
    · rintro ⟨p, hp⟩
      cases h1 : bus.Dial amqpURL with
      | error e => simp [NewPublisher, h1] at hp
      | ok conn =>
        cases h2 : bus.OpenChannel conn with
        | error e => simp [NewPublisher, h1, h2] at hp
        | ok ch =>
          cases h3 : bus.ExchangeDeclare ch exchange "topic" true false false false [] with
          | some e => simp [NewPublisher, h1, h2, h3] at hp
          | none => exact ⟨conn, ch, rfl, h2, h3⟩
    · rintro ⟨conn, ch, h1, h2, h3⟩
      exact ⟨⟨conn, ch, exchange⟩, by simp [NewPublisher, h1, h2, h3]⟩
  · cases h1 : bus.Dial amqpURL with
    | error e => simp [NewPublisher, h1]
    | ok conn =>
      cases h2 : bus.OpenChannel conn with
      | error e => simp [NewPublisher, h1, h2]
      | ok ch =>
        cases h3 : bus.ExchangeDeclare ch exchange "topic" true false false false [] with
        | some e => simp [NewPublisher, h1, h2, h3]
        | none => simp [NewPublisher, h1, h2, h3]
  · intro p hp
    have hex : p.exchange = exchange := by
      cases h1 : bus.Dial amqpURL with
      | error e => simp [NewPublisher, h1] at hp
      | ok conn =>
        cases h2 : bus.OpenChannel conn with
        | error e => simp [NewPublisher, h1, h2] at hp
        | ok ch =>
          cases h3 : bus.ExchangeDeclare ch exchange "topic" true false false false [] with
          | some e => simp [NewPublisher, h1, h2, h3] at hp
          | none =>
            simp [NewPublisher, h1, h2, h3] at hp
            rw [← hp]
    refine ⟨hex, ?_⟩
    intro β bus2 marshal rt ctx routingKey event c hc
    cases hm : marshal event with
    | error e => simp [Publisher.Publish, hm] at hc
    | ok body =>
      simp [Publisher.Publish, hm] at hc
      rw [hex] at hc
      exact ⟨_, hc⟩

/-- Witness of C10: on a bus that accepts everything a publisher on the given
exchange is returned; on a bus that refuses the declaration none is. -/
theorem NewPublisher_declares_topic_exchange_witness :
    (NewPublisher okBus "amqp://bus" "events").value = (some ⟨⟨1⟩, ⟨7⟩, "events"⟩, none)
      ∧ (NewPublisher refusingBus "amqp://bus" "events").value
        = (none, some (.wrap "failed to declare exchange: " (.lib 9)))
      ∧ (NewPublisher refusingBus "amqp://bus" "events").calls
        = [.dial "amqp://bus", .openChannel ⟨1⟩,
            .exchangeDeclare ⟨7⟩ "events" "topic" true false false false []] :=
  ⟨((NewPublisher_declares_topic_exchange okBus "amqp://bus" "events").2.2.2.1
      ⟨1⟩ ⟨7⟩ rfl rfl rfl).1,
    ((NewPublisher_declares_topic_exchange refusingBus "amqp://bus" "events").2.2.1
      ⟨1⟩ ⟨7⟩ (.lib 9) rfl rfl rfl).1,
    ((NewPublisher_declares_topic_exchange refusingBus "amqp://bus" "events").2.2.1
      ⟨1⟩ ⟨7⟩ (.lib 9) rfl rfl rfl).2⟩

/-! ## Properties of the consumer -/

/-- C9: `NewConsumer` connects, opens a channel, sets the prefetch limit to the
given count (size 0, not global), declares the given queue durable, not
auto-deleted and not exclusive, and binds it to the given exchange under the
given routing key, in that order. The first step that fails ends the function
with a nil consumer and an error wrapping the error of that step, and no later
step is made. A consumer is returned, with a nil error, exactly when the five
steps succeed, and it consumes from the queue that was declared and bound. -/
theorem NewConsumer_five_steps (bus : Amqp) (amqpURL exchange queue routingKey : String)
    (prefetch : Int) :
    (∀ err, bus.Dial amqpURL = .error err →
        (NewConsumer bus amqpURL exchange queue routingKey prefetch).value
            = (none, some (.wrap "failed to connect to RabbitMQ: " err))
          ∧ (NewConsumer bus amqpURL exchange queue routingKey prefetch).calls
            = [.dial amqpURL])
      ∧ (∀ conn err, bus.Dial amqpURL = .ok conn → bus.OpenChannel conn = .error err →
        (NewConsumer bus amqpURL exchange queue routingKey prefetch).value
            = (none, some (.wrap "failed to open channel: " err))
          ∧ (NewConsumer bus amqpURL exchange queue routingKey prefetch).calls
            = [.dial amqpURL, .openChannel conn])
      ∧ (∀ conn ch err, bus.Dial amqpURL = .ok conn → bus.OpenChannel conn = .ok ch →
        bus.Qos ch prefetch 0 false = some err →
        (NewConsumer bus amqpURL exchange queue routingKey prefetch).value
            = (none, some (.wrap "failed to set QoS: " err))
          ∧ (NewConsumer bus amqpURL exchange queue routingKey prefetch).calls
            = [.dial amqpURL, .openChannel conn, .qos ch prefetch 0 false])
      ∧ (∀ conn ch err, bus.Dial amqpURL = .ok conn → bus.OpenChannel conn = .ok ch →
        bus.Qos ch prefetch 0 false = none →
        bus.QueueDeclare ch queue true false false false [] = some err →
        (NewConsumer bus amqpURL exchange queue routingKey prefetch).value
            = (none, some (.wrap "failed to declare queue: " err))
          ∧ (NewConsumer bus amqpURL exchange queue routingKey prefetch).calls
            = [.dial amqpURL, .openChannel conn, .qos ch prefetch 0 false,
                .queueDeclare ch queue true false false false []])
      ∧ (∀ conn ch err, bus.Dial amqpURL = .ok conn → bus.OpenChannel conn = .ok ch →
        bus.Qos ch prefetch 0 false = none →
        bus.QueueDeclare ch queue true false false false [] = none →
        bus.QueueBind ch queue routingKey exchange false [] = some err →
        (NewConsumer bus amqpURL exchange queue routingKey prefetch).value
            = (none, some (.wrap "failed to bind queue: " err))
          ∧ (NewConsumer bus amqpURL exchange queue routingKey prefetch).calls
            = [.dial amqpURL, .openChannel conn, .qos ch prefetch 0 false,
                .queueDeclare ch queue true false false false [],
                .queueBind ch queue routingKey exchange false []])
      ∧ (∀ conn ch, bus.Dial amqpURL = .ok conn → bus.OpenChannel conn = .ok ch →
        bus.Qos ch prefetch 0 false = none →
        bus.QueueDeclare ch queue true false false false [] = none →
        bus.QueueBind ch queue routingKey exchange false [] = none →
        (NewConsumer bus amqpURL exchange queue routingKey prefetch).value
            = (some ⟨conn, ch, queue⟩, none)
          ∧ (NewConsumer bus amqpURL exchange queue routingKey prefetch).calls
            = [.dial amqpURL, .openChannel conn, .qos ch prefetch 0 false,
                .queueDeclare ch queue true false false false [],
                .queueBind ch queue routingKey exchange false []])
      ∧ ((∃ c, (NewConsumer bus amqpURL exchange queue routingKey prefetch).value
            = (some c, none)) ↔
        ∃ conn ch, bus.Dial amqpURL = .ok conn ∧ bus.OpenChannel conn = .ok ch ∧
          bus.Qos ch prefetch 0 false = none ∧
          bus.QueueDeclare ch queue true false false false [] = none ∧
          bus.QueueBind ch queue routingKey exchange false [] = none)
      ∧ ((NewConsumer bus amqpURL exchange queue routingKey prefetch).value.1 = none ↔
        (NewConsumer bus amqpURL exchange queue routingKey prefetch).value.2 ≠ none)
      ∧ (∀ c, (NewConsumer bus amqpURL exchange queue routingKey prefetch).value.1 = some c →
        c.queue = queue ∧
        ∀ (σ : Type) (bus2 : Amqp) (ctx : Context) (handler : Delivery → σ → σ) (app : σ)
          (ticks : List Tick),
          (c.Consume bus2 ctx handler app ticks).calls
            = [.consume c.channel queue "" false false false false []]) := by
  refine ⟨?_, ?_, ?_, ?_, ?_, ?_, ?_, ?_, ?_⟩
  · intro err h1
    simp [NewConsumer, h1]
  · intro conn err h1 h2
    simp [NewConsumer, h1, h2]
  · intro conn ch err h1 h2 h3
    simp [NewConsumer, h1, h2, h3]
  · intro conn ch err h1 h2 h3 h4
    simp [NewConsumer, h1, h2, h3, h4]
  · intro conn ch err h1 h2 h3 h4 h5
    simp [NewConsumer, h1, h2, h3, h4, h5]
  · intro conn ch h1 h2 h3 h4 h5
    simp [NewConsumer, h1, h2, h3, h4, h5]
  · constructor
    · rintro ⟨c, hc⟩
      cases h1 : bus.Dial amqpURL with
      | error e => simp [NewConsumer, h1] at hc
      | ok conn =>
        cases h2 : bus.OpenChannel conn with
        | error e => simp [NewConsumer, h1, h2] at hc
        | ok ch =>
          cases h3 : bus.Qos ch prefetch 0 false with
          | some e => simp [NewConsumer, h1, h2, h3] at hc
          | none =>
            cases h4 : bus.QueueDeclare ch queue true false false false [] with
            | some e => simp [NewConsumer, h1, h2, h3, h4] at hc
            | none =>
              cases h5 : bus.QueueBind ch queue routingKey exchange false [] with
              | some e => simp [NewConsumer, h1, h2, h3, h4, h5] at hc
              | none => exact ⟨conn, ch, rfl, h2, h3, h4, h5⟩
    · rintro ⟨conn, ch, h1, h2, h3, h4, h5⟩
      exact ⟨⟨conn, ch, queue⟩, by simp [NewConsumer, h1, h2, h3, h4, h5]⟩
  · cases h1 : bus.Dial amqpURL with
    | error e => simp [NewConsumer, h1]
    | ok conn =>
      cases h2 : bus.OpenChannel conn with
      | error e => simp [NewConsumer, h1, h2]
      | ok ch =>
        cases h3 : bus.Qos ch prefetch 0 false with
        | some e => simp [NewConsumer, h1, h2, h3]
        | none =>
          cases h4 : bus.QueueDeclare ch queue true false false false [] with
          | some e => simp [NewConsumer, h1, h2, h3, h4]
          | none =>
            cases h5 : bus.QueueBind ch queue routingKey exchange false [] with
            | some e => simp [NewConsumer, h1, h2, h3, h4, h5]
            | none => simp [NewConsumer, h1, h2, h3, h4, h5]
  · intro c hc
    have hq : c.queue = queue := by
      cases h1 : bus.Dial amqpURL with
      | error e => simp [NewConsumer, h1] at hc
      | ok conn =>
        cases h2 : bus.OpenChannel conn with
        | error e => simp [NewConsumer, h1, h2] at hc
        | ok ch =>
          cases h3 : bus.Qos ch prefetch 0 false with
          | some e => simp [NewConsumer, h1, h2, h3] at hc
          | none =>
            cases h4 : bus.QueueDeclare ch queue true false false false [] with
            | some e => simp [NewConsumer, h1, h2, h3, h4] at hc
            | none =>
              cases h5 : bus.QueueBind ch queue routingKey exchange false [] with
              | some e => simp [NewConsumer, h1, h2, h3, h4, h5] at hc
              | none =>
                simp [NewConsumer, h1, h2, h3, h4, h5] at hc
                rw [← hc]
    refine ⟨hq, ?_⟩
    intro σ bus2 ctx handler app ticks
    rw [← hq]
    simp only [Consumer.Consume]
    split <;> rfl

/-- Witness of C9: on a bus that accepts everything a consumer of the given
queue is returned after the five calls; on a bus that refuses the prefetch
limit none is, and the queue is neither declared nor bound. -/
theorem NewConsumer_five_steps_witness :
    (NewConsumer okBus "amqp://bus" "events" "wallet" "transfer.*" 10).value
        = (some ⟨⟨1⟩, ⟨7⟩, "wallet"⟩, none)
      ∧ (NewConsumer okBus "amqp://bus" "events" "wallet" "transfer.*" 10).calls
        = [.dial "amqp://bus", .openChannel ⟨1⟩, .qos ⟨7⟩ 10 0 false,
            .queueDeclare ⟨7⟩ "wallet" true false false false [],
            .queueBind ⟨7⟩ "wallet" "transfer.*" "events" false []]
      ∧ (NewConsumer refusingBus "amqp://bus" "events" "wallet" "transfer.*" 10).value
        = (none, some (.wrap "failed to set QoS: " (.lib 9)))
      ∧ (NewConsumer refusingBus "amqp://bus" "events" "wallet" "transfer.*" 10).calls
        = [.dial "amqp://bus", .openChannel ⟨1⟩, .qos ⟨7⟩ 10 0 false] :=
  ⟨((NewConsumer_five_steps okBus "amqp://bus" "events" "wallet" "transfer.*" 10).2.2.2.2.2.1
      ⟨1⟩ ⟨7⟩ rfl rfl rfl rfl rfl).1,
    ((NewConsumer_five_steps okBus "amqp://bus" "events" "wallet" "transfer.*" 10).2.2.2.2.2.1
      ⟨1⟩ ⟨7⟩ rfl rfl rfl rfl rfl).2,
    ((NewConsumer_five_steps refusingBus "amqp://bus" "events" "wallet" "transfer.*" 10).2.2.1
      ⟨1⟩ ⟨7⟩ (.lib 9) rfl rfl rfl).1,
    ((NewConsumer_five_steps refusingBus "amqp://bus" "events" "wallet" "transfer.*" 10).2.2.1
      ⟨1⟩ ⟨7⟩ (.lib 9) rfl rfl rfl).2⟩

/-! ### The loop of `Consume` -/

/-- The deliveries handled in a trace made of two parts are those of the parts. -/
theorem handled_append (t u : List Event) : handled (t ++ u) = handled t ++ handled u := by
  induction t with
  | nil => rfl
  | cons e t ih => cases e <;> simp [handled, ih]

/-- Appending an event puts the cancellation in a trace only when the event is it. -/
theorem hasCanceled_snoc (t : List Event) (e : Event) :
    hasCanceled (t ++ [e]) = (hasCanceled t || decide (e = .canceled)) := by
  induction t with
  | nil => cases e <;> simp [hasCanceled]
  | cons a t ih => cases a <;> simp [hasCanceled, ih]

/-- Appending an event puts a return in a trace only when the event is one. -/
theorem hasReturned_snoc (t : List Event) (e : Event) :
    hasReturned (t ++ [e]) = (hasReturned t || !(e.isHandler || decide (e = .canceled))) := by
  induction t with
  | nil => cases e <;> simp [hasReturned, Event.isHandler]
  | cons a t ih => cases a <;> simp [hasReturned, ih]

/-- A handler call appended to a trace is after the cancellation exactly when
the cancellation is in the trace. -/
theorem handlerAfterCancel_snoc (t : List Event) (e : Event) :
    handlerAfterCancel (t ++ [e]) = (handlerAfterCancel t || (hasCanceled t && e.isHandler)) := by
  induction t with
  | nil => cases e <;> simp [handlerAfterCancel, hasCanceled]
  | cons a t ih => cases a <;> simp [handlerAfterCancel, hasCanceled, ih]

/-- A handler call appended to a trace is after a return exactly when a return
is in the trace. -/
theorem handlerAfterReturn_snoc (t : List Event) (e : Event) :
    handlerAfterReturn (t ++ [e]) = (handlerAfterReturn t || (hasReturned t && e.isHandler)) := by
  induction t with
  | nil => cases e <;> simp [handlerAfterReturn, hasReturned]
  | cons a t ih => cases a <;> simp [handlerAfterReturn, hasReturned, ih]

/-- The invariant holds when the loop starts. -/
theorem loopStart_inv {σ : Type} (handler : Delivery → σ → σ) (app : σ) (ctx : Context) :
    LoopInv handler app ctx.cause (loopStart ctx app) := by
  cases hd : ctx.done <;>
    simp [LoopInv, loopStart, hd, handled, hasCanceled, hasReturned, handlerAfterReturn]

/-- An evaluation of the `select` by a running loop keeps the invariant. -/
theorem selectStep_inv {σ : Type} (handler : Delivery → σ → σ) (app₀ : σ) (cause : Err)
    (s : LoopState σ) (pickDone : Bool) (hret : s.ret = none)
    (h : LoopInv handler app₀ cause s) : LoopInv handler app₀ cause (selectStep handler pickDone s) := by
  obtain ⟨h1, h2, h3, h4, h5, h6, h7⟩ := h
  have h5' := h5 hret
  unfold selectStep
  simp only
  split_ifs with hd hm
  · have hdone : s.ctx.done = true := by
      simp only [Bool.and_eq_true] at hd
      exact hd.1
    refine ⟨h1, ?_, ?_, ?_, ?_, ?_, ?_⟩
    · simpa [handled_append, handled] using h2
    · simpa [handled_append, handled] using h3
    · simp [hasCanceled_snoc, h4]
    · intro hc
      simp at hc
    · simp [handlerAfterReturn_snoc, h6, Event.isHandler]
    · intro r hr
      left
      simp only [Option.some.injEq] at hr
      simp [← hr, Context.Err, hdone, h1]
  · cases hmsgs : s.msgs with
    | nil =>
      have hclosed : s.closed = true := by simpa [hmsgs] using hm
      simp only
      refine ⟨h1, ?_, ?_, ?_, ?_, ?_, ?_⟩
      · simpa [handled_append, handled, hmsgs] using h2
      · simpa [handled_append, handled] using h3
      · simp [hasCanceled_snoc, h4]
      · intro hc
        simp at hc
      · simp [handlerAfterReturn_snoc, h6, Event.isHandler]
      · intro r hr
        right
        simp only [Option.some.injEq] at hr
        simp [← hr, hclosed, hmsgs]
    | cons msg rest =>
      simp only
      have h2a := h2.1
      rw [hmsgs] at h2a
      refine ⟨h1, ⟨?_, h2.2.1, ?_⟩, ?_, ?_, ?_, ?_, ?_⟩
      · simpa [handled_append, handled] using h2a
      · intro hc
        have hnil := h2.2.2 hc
        rw [hmsgs] at hnil
        exact absurd hnil (List.cons_ne_nil _ _)
      · simp [handled_append, handled, h3]
      · simp [hasCanceled_snoc, h4]
      · intro _
        simp [hasReturned_snoc, h5', Event.isHandler]
      · simp [handlerAfterReturn_snoc, h6, h5']
      · intro r hr
        simp [hret] at hr
  · exact ⟨h1, h2, h3, h4, h5, h6, h7⟩

/-- Every tick keeps the invariant. -/
theorem tick_inv {σ : Type} (handler : Delivery → σ → σ) (app₀ : σ) (cause : Err)
    (s : LoopState σ) (t : Tick) (h : LoopInv handler app₀ cause s) :
    LoopInv handler app₀ cause (tick handler s t) := by
  cases t with
  | cancel =>
    obtain ⟨h1, h2, h3, h4, h5, h6, h7⟩ := h
    simp only [tick]
    split_ifs with hd
    · exact ⟨h1, h2, h3, h4, h5, h6, h7⟩
    · refine ⟨h1, ?_, ?_, ?_, ?_, ?_, ?_⟩
      · simpa [handled_append, handled] using h2
      · simpa [handled_append, handled] using h3
      · simp [hasCanceled_snoc]
      · intro hc
        simpa [hasReturned_snoc, Event.isHandler] using h5 hc
      · simp [handlerAfterReturn_snoc, h6, Event.isHandler]
      · intro r hr
        rcases h7 r hr with h | h
        · exact Or.inl ⟨h.1, rfl⟩
        · exact Or.inr h
  | deliver d =>
    obtain ⟨h1, h2, h3, h4, h5, h6, h7⟩ := h
    simp only [tick]
    split_ifs with hc
    · exact ⟨h1, h2, h3, h4, h5, h6, h7⟩
    · have hopen : s.closed = false := by simpa using hc
      have hd := h2.2.1 hopen
      have h2a := h2.1
      rw [hd] at h2a
      refine ⟨h1, ⟨?_, h2.2.1, ?_⟩, h3, h4, h5, h6, ?_⟩
      · simp only [hd, List.append_nil] at h2a ⊢
        rw [← h2a, List.append_assoc]
      · intro hcl
        exact absurd hcl hc
      · intro r hr
        rcases h7 r hr with h | h
        · exact Or.inl h
        · exact absurd h.2.1 hc
  | closeStream =>
    obtain ⟨h1, h2, h3, h4, h5, h6, h7⟩ := h
    simp only [tick]
    refine ⟨h1, ⟨?_, ?_, ?_⟩, h3, h4, h5, h6, ?_⟩
    · have h2a := h2.1
      cases hcl : s.closed with
      | false =>
        rw [h2.2.1 hcl] at h2a ⊢
        simpa using h2a
      | true =>
        rw [h2.2.2 hcl] at h2a ⊢
        simpa using h2a
    · intro hc
      simp at hc
    · intro _
      rfl
    · intro r hr
      rcases h7 r hr with h | h
      · exact Or.inl h
      · exact Or.inr ⟨h.1, rfl, rfl⟩
  | select pickDone =>
    simp only [tick]
    cases hret : s.ret with
    | some r => simpa using h
    | none => exact selectStep_inv handler app₀ cause s pickDone hret h

/-- Every run of ticks keeps the invariant. -/
theorem run_inv {σ : Type} (handler : Delivery → σ → σ) (app₀ : σ) (cause : Err)
    (ticks : List Tick) (s : LoopState σ) (h : LoopInv handler app₀ cause s) :
    LoopInv handler app₀ cause (ticks.foldl (tick handler) s) := by
  induction ticks generalizing s with
  | nil => exact h
  | cons t ticks ih => exact ih _ (tick_inv handler app₀ cause s t h)

/-- The `select` changes neither the context, nor whether the stream is closed,
nor the deliveries that arrived. -/
theorem selectStep_env {σ : Type} (handler : Delivery → σ → σ) (s : LoopState σ)
    (pickDone : Bool) :
    (selectStep handler pickDone s).ctx = s.ctx
      ∧ (selectStep handler pickDone s).closed = s.closed
      ∧ (selectStep handler pickDone s).arrived = s.arrived := by
  unfold selectStep
  simp only
  split_ifs
  · exact ⟨rfl, rfl, rfl⟩
  · cases s.msgs <;> exact ⟨rfl, rfl, rfl⟩
  · exact ⟨rfl, rfl, rfl⟩

/-- A `select` tick changes neither the context, nor whether the stream is
closed, nor the deliveries that arrived. -/
theorem tick_select_env {σ : Type} (handler : Delivery → σ → σ) (s : LoopState σ)
    (pickDone : Bool) :
    (tick handler s (.select pickDone)).ctx = s.ctx
      ∧ (tick handler s (.select pickDone)).closed = s.closed
      ∧ (tick handler s (.select pickDone)).arrived = s.arrived := by
  cases hr : s.ret with
  | some r => simp [tick, hr]
  | none => simpa [tick, hr] using selectStep_env handler s pickDone

/-- The deliveries that arrive during a run are those sent before the stream
closes. -/
theorem run_arrived {σ : Type} (handler : Delivery → σ → σ) (ticks : List Tick)
    (s : LoopState σ) :
    (ticks.foldl (tick handler) s).arrived
      = s.arrived ++ (if s.closed then [] else sent ticks) := by
  induction ticks generalizing s with
  | nil => simp [sent]
  | cons t ticks ih =>
    rw [List.foldl_cons, ih]
    cases t with
    | cancel =>
      simp only [tick]
      split_ifs <;> simp_all [sent]
    | deliver d =>
      simp only [tick]
      split_ifs <;> simp_all [sent]
    | closeStream => simp [tick, sent]
    | select pickDone =>
      rw [(tick_select_env handler s pickDone).2.1, (tick_select_env handler s pickDone).2.2]
      simp [sent]

/-- A stream closed after a run was closed before it or by one of its ticks. -/
theorem run_closed {σ : Type} (handler : Delivery → σ → σ) (ticks : List Tick)
    (s : LoopState σ) (h : (ticks.foldl (tick handler) s).closed = true) :
    s.closed = true ∨ Tick.closeStream ∈ ticks := by
  induction ticks generalizing s with
  | nil => exact Or.inl h
  | cons t ticks ih =>
    rw [List.foldl_cons] at h
    rcases ih _ h with h' | h'
    · cases t with
      | cancel =>
        simp only [tick] at h'
        split_ifs at h' <;> exact Or.inl h'
      | deliver d =>
        simp only [tick] at h'
        split_ifs at h' <;> exact Or.inl h'
      | closeStream => exact Or.inr (List.mem_cons_self _ _)
      | select pickDone =>
        rw [(tick_select_env handler s pickDone).2.1] at h'
        exact Or.inl h'
    · exact Or.inr (List.mem_cons_of_mem _ h')

/-- A context done after a run was done before it or canceled by one of its
ticks. -/
theorem run_done {σ : Type} (handler : Delivery → σ → σ) (ticks : List Tick)
    (s : LoopState σ) (h : (ticks.foldl (tick handler) s).ctx.done = true) :
    s.ctx.done = true ∨ Tick.cancel ∈ ticks := by
  induction ticks generalizing s with
  | nil => exact Or.inl h
  | cons t ticks ih =>
    rw [List.foldl_cons] at h
    rcases ih _ h with h' | h'
    · cases t with
      | cancel => exact Or.inr (List.mem_cons_self _ _)
      | deliver d =>
        simp only [tick] at h'
        split_ifs at h' <;> exact Or.inl h'
      | closeStream => exact Or.inl h'
      | select pickDone =>
        rw [(tick_select_env handler s pickDone).1] at h'
        exact Or.inl h'
    · exact Or.inr (List.mem_cons_of_mem _ h')

/-- A tick other than a `select` that prefers the delivery case starts no handler
call after the cancellation. -/
theorem tick_no_late_handler {σ : Type} (handler : Delivery → σ → σ) (s : LoopState σ)
    (t : Tick) (ht : t ≠ .select false) (hc : hasCanceled s.trace = s.ctx.done)
    (h : handlerAfterCancel s.trace = false) :
    handlerAfterCancel (tick handler s t).trace = false := by
  cases t with
  | cancel =>
    simp only [tick]
    split_ifs
    · exact h
    · simp [handlerAfterCancel_snoc, h, Event.isHandler]
  | deliver d =>
    simp only [tick]
    split_ifs <;> exact h
  | closeStream => exact h
  | select pickDone =>
    cases pickDone with
    | false => exact absurd rfl ht
    | true =>
      simp only [tick]
      cases s.ret with
      | some r => exact h
      | none =>
        simp only [selectStep]
        cases hd : s.ctx.done with
        | true => simp [handlerAfterCancel_snoc, h, Event.isHandler]
        | false =>
          simp only [Bool.false_and, Bool.false_eq_true, if_false]
          split_ifs
          · cases s.msgs with
            | nil => simp [handlerAfterCancel_snoc, h, Event.isHandler]
            | cons msg rest => simp [handlerAfterCancel_snoc, h, hc, hd]
          · exact h

/-- A run without a `select` that prefers the delivery case starts no handler
call after the cancellation. -/
theorem run_no_late_handler {σ : Type} (handler : Delivery → σ → σ) (app₀ : σ) (cause : Err)
    (ticks : List Tick) (s : LoopState σ) (ht : ∀ t ∈ ticks, t ≠ .select false)
    (hinv : LoopInv handler app₀ cause s) (h : handlerAfterCancel s.trace = false) :
    handlerAfterCancel (ticks.foldl (tick handler) s).trace = false := by
  induction ticks generalizing s with
  | nil => exact h
  | cons t ticks ih =>
    rw [List.foldl_cons]
    exact ih _ (fun u hu => ht u (List.mem_cons_of_mem _ hu))
      (tick_inv handler app₀ cause s t hinv)
      (tick_no_late_handler handler s t (ht t (List.mem_cons_self _ _)) hinv.2.2.2.1 h)

/-- The invariant holds of the state `Consume` ends in when the registration
succeeded. -/
theorem Consume_inv {σ : Type} (c : Consumer) (bus : Amqp) (ctx : Context)
    (handler : Delivery → σ → σ) (app : σ) (ticks : List Tick)
    (hreg : bus.Consume c.channel c.queue "" false false false false [] = none) :
    LoopInv handler app ctx.cause (c.Consume bus ctx handler app ticks).value := by
  simp only [Consumer.Consume, hreg]
  exact run_inv handler app ctx.cause ticks _ (loopStart_inv handler app ctx)

/-- A `select` evaluated by a running loop whose context is not done and whose
stream is open takes the oldest waiting delivery and calls the handler on it,
and blocks when none waits. -/
theorem select_live {σ : Type} (handler : Delivery → σ → σ) (s : LoopState σ) (b : Bool)
    (hr : s.ret = none) (hd : s.ctx.done = false) (hc : s.closed = false) :
    tick handler s (.select b)
      = match s.msgs with
        | [] => s
        | d :: rest =>
          { s with msgs := rest, app := handler d s.app, trace := s.trace ++ [.handler d] } := by
  cases hm : s.msgs <;> simp [tick, selectStep, hr, hd, hc, hm]

/-- A run in which the context is not canceled and the stream is not closed
leaves a running loop running, its context not done and its stream open. -/
theorem run_live {σ : Type} (handler : Delivery → σ → σ) (ticks : List Tick)
    (s : LoopState σ) (hr : s.ret = none) (hd : s.ctx.done = false) (hc : s.closed = false)
    (ht : ∀ t ∈ ticks, t ≠ .cancel ∧ t ≠ .closeStream) :
    (ticks.foldl (tick handler) s).ret = none
      ∧ (ticks.foldl (tick handler) s).ctx.done = false
      ∧ (ticks.foldl (tick handler) s).closed = false := by
  induction ticks generalizing s with
  | nil => exact ⟨hr, hd, hc⟩
  | cons t ticks ih =>
    rw [List.foldl_cons]
    have ht' : ∀ u ∈ ticks, u ≠ Tick.cancel ∧ u ≠ Tick.closeStream :=
      fun u hu => ht u (List.mem_cons_of_mem _ hu)
    have htt := ht t (List.mem_cons_self _ _)
    cases t with
    | cancel => exact absurd rfl htt.1
    | closeStream => exact absurd rfl htt.2
    | deliver d =>
      refine ih _ ?_ ?_ ?_ ht' <;> simp [tick, hc, hr, hd]
    | select b =>
      rw [select_live handler s b hr hd hc]
      cases hm : s.msgs with
      | nil => exact ih _ hr hd hc ht'
      | cons d rest => exact ih _ hr hd hc ht'

/-- Enough evaluations of the `select` by a running loop whose context is not
done and whose stream is open hand every waiting delivery to the handler, in
order. -/
theorem drain {σ : Type} (handler : Delivery → σ → σ) (b : Bool) (n : Nat)
    (s : LoopState σ) (hr : s.ret = none) (hd : s.ctx.done = false) (hc : s.closed = false)
    (hn : s.msgs.length ≤ n) :
    handled ((List.replicate n (Tick.select b)).foldl (tick handler) s).trace
      = handled s.trace ++ s.msgs := by
  induction n generalizing s with
  | zero =>
    have hm : s.msgs = [] := List.length_eq_zero.mp (Nat.le_zero.mp hn)
    simp [hm]
  | succ n ih =>
    rw [List.replicate_succ, List.foldl_cons, select_live handler s b hr hd hc]
    cases hm : s.msgs with
    | nil =>
      have h := ih s hr hd hc (by simp [hm])
      simpa [hm] using h
    | cons d rest =>
      have hlen : rest.length ≤ n := by
        rw [hm] at hn
        simpa using hn
      have h := ih { s with msgs := rest, app := handler d s.app,
                            trace := s.trace ++ [.handler d] } hr hd hc hlen
      simpa [handled_append, handled] using h

/-- C2, as stated, fails: a delivery that arrived before `Consume` returns need
not reach the handler. Two deliveries arrive and the loop hands the first to
the handler; then either the context is canceled and `Consume` returns with the
second still waiting on the stream, or the transport closes the stream, which
discards the second, and `Consume` returns `channel closed`. The handler was
called on the first delivery only. -/
theorem Consume_returns_with_delivery_unhandled :
    ((sampleConsumer.Consume okBus liveContext countingHandler 0
          [.deliver ⟨1, "a"⟩, .deliver ⟨2, "b"⟩, .select false, .cancel,
            .select true]).value.ret = some (some .canceled)
        ∧ (sampleConsumer.Consume okBus liveContext countingHandler 0
          [.deliver ⟨1, "a"⟩, .deliver ⟨2, "b"⟩, .select false, .cancel,
            .select true]).value.arrived = [⟨1, "a"⟩, ⟨2, "b"⟩]
        ∧ handled (sampleConsumer.Consume okBus liveContext countingHandler 0
          [.deliver ⟨1, "a"⟩, .deliver ⟨2, "b"⟩, .select false, .cancel,
            .select true]).value.trace = [⟨1, "a"⟩]
        ∧ (sampleConsumer.Consume okBus liveContext countingHandler 0
          [.deliver ⟨1, "a"⟩, .deliver ⟨2, "b"⟩, .select false, .cancel,
            .select true]).value.msgs = [⟨2, "b"⟩])
      ∧ ((sampleConsumer.Consume okBus liveContext countingHandler 0
          [.deliver ⟨1, "a"⟩, .deliver ⟨2, "b"⟩, .select false, .closeStream,
            .select false]).value.ret = some (some (.errorf "channel closed"))
        ∧ (sampleConsumer.Consume okBus liveContext countingHandler 0
          [.deliver ⟨1, "a"⟩, .deliver ⟨2, "b"⟩, .select false, .closeStream,
            .select false]).value.arrived = [⟨1, "a"⟩, ⟨2, "b"⟩]
        ∧ handled (sampleConsumer.Consume okBus liveContext countingHandler 0
          [.deliver ⟨1, "a"⟩, .deliver ⟨2, "b"⟩, .select false, .closeStream,
            .select false]).value.trace = [⟨1, "a"⟩]
        ∧ (sampleConsumer.Consume okBus liveContext countingHandler 0
          [.deliver ⟨1, "a"⟩, .deliver ⟨2, "b"⟩, .select false, .closeStream,
            .select false]).value.dropped = [⟨2, "b"⟩]) := by
  decide

/-- C2, amended: `Consume` registers on the queue of the consumer with auto-ack
disabled, and that registration is the only call it makes on the channel: it
never acknowledges or rejects a delivery. Every evaluation of the `select` by
the running loop that finds a delivery waiting, the context not being done or
the runtime picking the delivery case, takes the oldest waiting delivery and
calls the handler on it once. So the deliveries the handler was called on, in
order, are an initial segment of the deliveries that arrived: followed by those
still waiting on the stream and those the transport discarded on closing it,
they are exactly the deliveries the bus sent, in order, and the state the
handler acts on is the result of those calls. In an execution in which the
context is never canceled and the stream is never closed, once the loop has
evaluated its `select` as many times as deliveries were sent, the handler has
been called on every one of them, in arrival order. -/
theorem Consume_hands_each_taken_delivery_to_handler {σ : Type} (c : Consumer) (bus : Amqp)
    (ctx : Context) (handler : Delivery → σ → σ) (app : σ) (ticks : List Tick) :
    (c.Consume bus ctx handler app ticks).calls
        = [.consume c.channel c.queue "" false false false false []]
      ∧ (∀ call ∈ (c.Consume bus ctx handler app ticks).calls, call.settles = false)
      ∧ (∀ (s : LoopState σ) (d : Delivery) (rest : List Delivery) (pickDone : Bool),
          s.ret = none → s.msgs = d :: rest → (s.ctx.done = false ∨ pickDone = false) →
          tick handler s (.select pickDone)
            = { s with msgs := rest, app := handler d s.app,
                       trace := s.trace ++ [.handler d] })
      ∧ handled (c.Consume bus ctx handler app ticks).value.trace
          ++ (c.Consume bus ctx handler app ticks).value.msgs
          ++ (c.Consume bus ctx handler app ticks).value.dropped
        = (c.Consume bus ctx handler app ticks).value.arrived
      ∧ (c.Consume bus ctx handler app ticks).value.app
        = (handled (c.Consume bus ctx handler app ticks).value.trace).foldl
            (fun a d => handler d a) app
      ∧ (bus.Consume c.channel c.queue "" false false false false [] = none →
          (c.Consume bus ctx handler app ticks).value.arrived = sent ticks)
      ∧ (bus.Consume c.channel c.queue "" false false false false [] = none →
          ctx.done = false → (∀ t ∈ ticks, t ≠ .cancel ∧ t ≠ .closeStream) →
          ∀ b : Bool,
            handled (c.Consume bus ctx handler app
              (ticks ++ List.replicate (sent ticks).length (.select b))).value.trace
              = sent ticks) := by
  have hstep : ∀ (s : LoopState σ) (d : Delivery) (rest : List Delivery) (pickDone : Bool),
      s.ret = none → s.msgs = d :: rest → (s.ctx.done = false ∨ pickDone = false) →
      tick handler s (.select pickDone)
        = { s with msgs := rest, app := handler d s.app,
                   trace := s.trace ++ [.handler d] } := by
    intro s d rest pickDone hr hm hp
    rcases hp with hp | hp
    · simp [tick, selectStep, hr, hm, hp]
    · cases hd : s.ctx.done <;> simp [tick, selectStep, hr, hm, hp, hd]
  cases hreg : bus.Consume c.channel c.queue "" false false false false [] with
  | some err =>
    refine ⟨by simp [Consumer.Consume, hreg], by simp [Consumer.Consume, hreg, Call.settles],
      hstep, ?_, ?_, ?_, ?_⟩
    · cases hd : ctx.done <;>
        simp [Consumer.Consume, hreg, loopStart, hd, handled, handled_append]
    · cases hd : ctx.done <;>
        simp [Consumer.Consume, hreg, loopStart, hd, handled, handled_append]
    · intro h
      simp at h
    · intro h
      simp at h
  | none =>
    have hinv := Consume_inv c bus ctx handler app ticks hreg
    refine ⟨by simp [Consumer.Consume, hreg], by simp [Consumer.Consume, hreg, Call.settles],
      hstep, hinv.2.1.1, hinv.2.2.1, ?_, ?_⟩
    · intro _
      simp only [Consumer.Consume, hreg]
      rw [run_arrived]
      simp [loopStart]
    · intro _ hd ht b
      simp only [Consumer.Consume, hreg, List.foldl_append]
      have hlive := run_live handler ticks (loopStart ctx app) rfl
        (by simpa [loopStart] using hd) rfl ht
      have hinv1 := run_inv handler app ctx.cause ticks _ (loopStart_inv handler app ctx)
      have harr : (ticks.foldl (tick handler) (loopStart ctx app)).arrived = sent ticks := by
        rw [run_arrived]
        simp [loopStart]
      have hsum := hinv1.2.1.1
      rw [hinv1.2.1.2.1 hlive.2.2, List.append_nil, harr] at hsum
      have hlen : (ticks.foldl (tick handler) (loopStart ctx app)).msgs.length
          ≤ (sent ticks).length := by
        rw [← hsum]
        simp
      rw [drain handler b _ _ hlive.1 hlive.2.1 hlive.2.2 hlen]
      exact hsum

/-- Witness of C2, amended: three deliveries are sent to a loop whose context
is never canceled and whose stream stays open, and the loop takes one of them
at once; after three more evaluations of the `select` the handler has been
called on the three, in arrival order. -/
theorem Consume_hands_each_taken_delivery_to_handler_witness :
    okBus.Consume sampleConsumer.channel sampleConsumer.queue "" false false false false []
        = none
      ∧ liveContext.done = false
      ∧ (∀ t ∈ [Tick.deliver ⟨1, "a"⟩, Tick.deliver ⟨2, "b"⟩, Tick.select false,
            Tick.deliver ⟨3, "c"⟩], t ≠ Tick.cancel ∧ t ≠ Tick.closeStream)
      ∧ sent [Tick.deliver ⟨1, "a"⟩, Tick.deliver ⟨2, "b"⟩, Tick.select false,
            Tick.deliver ⟨3, "c"⟩] = [⟨1, "a"⟩, ⟨2, "b"⟩, ⟨3, "c"⟩]
      ∧ handled (sampleConsumer.Consume okBus liveContext countingHandler 0
          ([Tick.deliver ⟨1, "a"⟩, Tick.deliver ⟨2, "b"⟩, Tick.select false,
              Tick.deliver ⟨3, "c"⟩]
            ++ List.replicate (sent [Tick.deliver ⟨1, "a"⟩, Tick.deliver ⟨2, "b"⟩,
              Tick.select false, Tick.deliver ⟨3, "c"⟩]).length (.select true))).value.trace
        = sent [Tick.deliver ⟨1, "a"⟩, Tick.deliver ⟨2, "b"⟩, Tick.select false,
            Tick.deliver ⟨3, "c"⟩] :=
  ⟨rfl, rfl, by decide, by decide,
    (Consume_hands_each_taken_delivery_to_handler sampleConsumer okBus liveContext
      countingHandler 0
      [.deliver ⟨1, "a"⟩, .deliver ⟨2, "b"⟩, .select false, .deliver ⟨3, "c"⟩]).2.2.2.2.2.2
      rfl rfl (by decide) true⟩

/-- C5: `Consume` never returns nil, and its ways of ending can be told apart,
for a context whose cause is one of the two context errors. It returns the
error of the context only when the context was canceled (done at the call, or
canceled during it); it returns the error `channel closed`, which is not the
error of the context, only when the transport closed the stream and the stream
is drained; and when the registration fails it returns an error wrapping the
registration error, without any call of the handler. Every value it returns is
one of these three. -/
theorem Consume_never_returns_nil {σ : Type} (c : Consumer) (bus : Amqp)
    (ctx : Context) (handler : Delivery → σ → σ) (app : σ) (ticks : List Tick)
    (hcause : ctx.cause = .canceled ∨ ctx.cause = .deadlineExceeded) :
    (c.Consume bus ctx handler app ticks).value.ret ≠ some none
      ∧ ((c.Consume bus ctx handler app ticks).value.ret = some (some ctx.cause) →
          (ctx.done = true ∨ Tick.cancel ∈ ticks)
            ∧ bus.Consume c.channel c.queue "" false false false false [] = none)
      ∧ ((c.Consume bus ctx handler app ticks).value.ret
            = some (some (.errorf "channel closed")) →
          Tick.closeStream ∈ ticks
            ∧ (c.Consume bus ctx handler app ticks).value.msgs = []
            ∧ bus.Consume c.channel c.queue "" false false false false [] = none)
      ∧ Err.errorf "channel closed" ≠ ctx.cause
      ∧ (∀ err, bus.Consume c.channel c.queue "" false false false false [] = some err →
          (c.Consume bus ctx handler app ticks).value.ret
              = some (some (.wrap "failed to register consumer: " err))
            ∧ handled (c.Consume bus ctx handler app ticks).value.trace = []
            ∧ Err.wrap "failed to register consumer: " err ≠ ctx.cause
            ∧ Err.wrap "failed to register consumer: " err ≠ .errorf "channel closed")
      ∧ (∀ r, (c.Consume bus ctx handler app ticks).value.ret = some r →
          r = some ctx.cause ∨ r = some (.errorf "channel closed")
            ∨ ∃ err, bus.Consume c.channel c.queue "" false false false false [] = some err
                ∧ r = some (.wrap "failed to register consumer: " err)) := by
  have hne : Err.errorf "channel closed" ≠ ctx.cause := by
    rcases hcause with h | h <;> simp [h]
  cases hreg : bus.Consume c.channel c.queue "" false false false false [] with
  | some err =>
    have hw : Err.wrap "failed to register consumer: " err ≠ ctx.cause := by
      rcases hcause with h | h <;> simp [h]
    refine ⟨?_, ?_, ?_, hne, ?_, ?_⟩
    · simp [Consumer.Consume, hreg]
    · intro h
      simp only [Consumer.Consume, hreg, Option.some.injEq] at h
      exact absurd h hw
    · intro h
      simp [Consumer.Consume, hreg] at h
    · intro err2 he
      simp only [Option.some.injEq] at he
      subst he
      refine ⟨by simp [Consumer.Consume, hreg], ?_, hw, by simp⟩
      cases hd : ctx.done <;>
        simp [Consumer.Consume, hreg, loopStart, hd, handled, handled_append]
    · intro r hr
      simp only [Consumer.Consume, hreg, Option.some.injEq] at hr
      exact Or.inr (Or.inr ⟨err, rfl, hr.symm⟩)
  | none =>
    have hinv := Consume_inv c bus ctx handler app ticks hreg
    have h7 := hinv.2.2.2.2.2.2
    refine ⟨?_, ?_, ?_, hne, ?_, ?_⟩
    · intro h
      rcases h7 _ h with h' | h' <;> simp at h'
    · intro h
      refine ⟨?_, rfl⟩
      have hdone : (c.Consume bus ctx handler app ticks).value.ctx.done = true := by
        rcases h7 _ h with h' | h'
        · exact h'.2
        · exact absurd (Option.some.inj h'.1).symm hne
      simp only [Consumer.Consume, hreg] at hdone
      rcases run_done handler ticks _ hdone with h' | h'
      · exact Or.inl h'
      · exact Or.inr h'
    · intro h
      have hcl : (c.Consume bus ctx handler app ticks).value.closed = true
          ∧ (c.Consume bus ctx handler app ticks).value.msgs = [] := by
        rcases h7 _ h with h' | h'
        · exact absurd (Option.some.inj h'.1) hne
        · exact h'.2
      refine ⟨?_, hcl.2, rfl⟩
      have hc := hcl.1
      simp only [Consumer.Consume, hreg] at hc
      rcases run_closed handler ticks _ hc with h' | h'
      · simp [loopStart] at h'
      · exact h'
    · intro err he
      simp at he
    · intro r hr
      rcases h7 r hr with h' | h'
      · exact Or.inl h'.1
      · exact Or.inr (Or.inl h'.1)

/-- Witness of C5: a context canceled while the loop waits makes `Consume`
return the error of the context. -/
theorem Consume_never_returns_nil_witness :
    (liveContext.cause = .canceled ∨ liveContext.cause = .deadlineExceeded)
      ∧ (sampleConsumer.Consume okBus liveContext countingHandler 0
          [.cancel, .select false]).value.ret ≠ some none
      ∧ (sampleConsumer.Consume okBus liveContext countingHandler 0
          [.cancel, .select false]).value.ret = some (some .canceled) :=
  ⟨Or.inl rfl,
    (Consume_never_returns_nil sampleConsumer okBus liveContext countingHandler 0
      [.cancel, .select false] (Or.inl rfl)).1,
    by decide⟩

/-- After a cancellation, a `select` that prefers the cancellation case leaves
the loop returned. -/
theorem cancel_then_select_returns {σ : Type} (handler : Delivery → σ → σ) (s : LoopState σ) :
    (tick handler (tick handler s .cancel) (.select true)).ret ≠ none := by
  cases hr : s.ret <;> cases hd : s.ctx.done <;> simp [tick, selectStep, hr, hd]

/-- C6, as stated, fails: a delivery is waiting on the stream when the context
is canceled, the next `select` has both cases ready and takes the delivery, and
the handler is called after the cancellation. -/
theorem Consume_handler_begins_after_cancel :
    (sampleConsumer.Consume okBus liveContext countingHandler 0
        [.deliver ⟨1, "a"⟩, .cancel, .select false]).value.trace
        = [.canceled, .handler ⟨1, "a"⟩]
      ∧ handlerAfterCancel (sampleConsumer.Consume okBus liveContext countingHandler 0
        [.deliver ⟨1, "a"⟩, .cancel, .select false]).value.trace = true := by
  decide

/-- C6, amended: once the context is canceled, an evaluation of the `select`
that takes the cancellation case, which is every evaluation made while no
delivery waits on an open stream and every one in which the runtime picks that
case, makes `Consume` return the error of the context without calling the
handler; so in every execution in which no `select` picks the delivery case
over a ready cancellation case, no call of the handler begins after the
cancellation. In every execution no call of the handler follows the return of
`Consume`, and after a cancellation the first `select` that takes the
cancellation case has made `Consume` return. -/
theorem Consume_stops_when_select_takes_cancellation {σ : Type} (c : Consumer) (bus : Amqp)
    (ctx : Context) (handler : Delivery → σ → σ) (app : σ) (ticks : List Tick) :
    (∀ (s : LoopState σ) (pickDone : Bool), s.ctx.done = true → s.ret = none →
        (pickDone = true ∨ (s.msgs = [] ∧ s.closed = false)) →
        tick handler s (.select pickDone)
          = { s with ret := some (some s.ctx.cause),
                     trace := s.trace ++ [.returned (some s.ctx.cause)] })
      ∧ ((∀ t ∈ ticks, t ≠ .select false) →
          handlerAfterCancel (c.Consume bus ctx handler app ticks).value.trace = false)
      ∧ handlerAfterReturn (c.Consume bus ctx handler app ticks).value.trace = false
      ∧ (c.Consume bus ctx handler app (ticks ++ [.cancel, .select true])).value.ret ≠ none := by
  refine ⟨?_, ?_, ?_, ?_⟩
  · intro s pickDone hd hr hp
    rcases hp with hp | ⟨hm, hc⟩
    · simp [tick, selectStep, hr, hd, hp, Context.Err]
    · simp [tick, selectStep, hr, hd, hm, hc, Context.Err]
  · intro ht
    cases hreg : bus.Consume c.channel c.queue "" false false false false [] with
    | some err =>
      cases hd : ctx.done <;>
        simp [Consumer.Consume, hreg, loopStart, hd, handlerAfterCancel, Event.isHandler]
    | none =>
      simp only [Consumer.Consume, hreg]
      refine run_no_late_handler handler app ctx.cause ticks _ ht
        (loopStart_inv handler app ctx) ?_
      cases hd : ctx.done <;> simp [loopStart, hd, handlerAfterCancel]
  · cases hreg : bus.Consume c.channel c.queue "" false false false false [] with
    | some err =>
      cases hd : ctx.done <;>
        simp [Consumer.Consume, hreg, loopStart, hd, handlerAfterReturn, Event.isHandler]
    | none => exact (Consume_inv c bus ctx handler app ticks hreg).2.2.2.2.2.1
  · cases hreg : bus.Consume c.channel c.queue "" false false false false [] with
    | some err => simp [Consumer.Consume, hreg]
    | none =>
      simp only [Consumer.Consume, hreg, List.foldl_append, List.foldl_cons, List.foldl_nil]
      exact cancel_then_select_returns handler _

/-- Witness of C6, amended: with a delivery waiting at the cancellation and a
`select` that takes the cancellation case, the handler is not called and
`Consume` has returned the error of the context. -/
theorem Consume_stops_when_select_takes_cancellation_witness :
    (∀ t ∈ [Tick.deliver ⟨1, "a"⟩, Tick.cancel, Tick.select true], t ≠ Tick.select false)
      ∧ handlerAfterCancel (sampleConsumer.Consume okBus liveContext countingHandler 0
          [.deliver ⟨1, "a"⟩, .cancel, .select true]).value.trace = false
      ∧ (sampleConsumer.Consume okBus liveContext countingHandler 0
          [.deliver ⟨1, "a"⟩, .cancel, .select true]).value.trace
        = [.canceled, .returned (some .canceled)] :=
  ⟨by decide,
    (Consume_stops_when_select_takes_cancellation sampleConsumer okBus liveContext
      countingHandler 0 [.deliver ⟨1, "a"⟩, .cancel, .select true]).2.1 (by decide),
    by decide⟩

/-! ## Properties of the models -/

/-- The index `idx_user_idempotency` is over the column `idempotency_key` alone. -/
theorem idempotency_index_columns :
    uniqueIndexColumns transactionFields "idx_user_idempotency" = ["idempotency_key"] := by
  decide

/-- What the index `idx_user_idempotency` rejects: two rows conflict exactly
when both carry an idempotency key and the keys are equal, whoever owns them. -/
theorem idempotencyConflict_iff (t₁ t₂ : Transaction) :
    idempotencyConflict t₁ t₂ = true ↔
      ∃ k, t₁.IdempotencyKey = some k ∧ t₂.IdempotencyKey = some k := by
  unfold idempotencyConflict
  rw [idempotency_index_columns]
  cases h1 : t₁.IdempotencyKey <;> cases h2 : t₂.IdempotencyKey <;>
    simp [uniqueConflict, Transaction.toRow, optText, h1, h2]
  exact eq_comm

/-- C1, on the code: the unique index `idx_user_idempotency` is declared on the
column `idempotency_key` alone, so two transactions of different users that
carry the same key are rejected, where the claim has both accepted. -/
theorem idx_user_idempotency_rejects_other_user :
    uniqueIndexColumns transactionFields "idx_user_idempotency" = ["idempotency_key"]
      ∧ (sampleTransaction "t1" "alice" (some "k")).UserID
          ≠ (sampleTransaction "t2" "bob" (some "k")).UserID
      ∧ idempotencyConflict (sampleTransaction "t1" "alice" (some "k"))
          (sampleTransaction "t2" "bob" (some "k")) = true := by
  refine ⟨idempotency_index_columns, by decide, ?_⟩
  rw [idempotencyConflict_iff]
  exact ⟨"k", rfl, rfl⟩

/-- The comparison `x >= 0` holds of positive infinity and of the rationals that
are at least zero. -/
theorem Float64.ge_zero_iff (x : Float64) :
    x.ge 0 = true ↔ (x = .posInf ∨ ∃ q, x = .finite q ∧ 0 ≤ q) := by
  cases x <;> simp [Float64.ge]

/-- The comparison `x > 0` holds of positive infinity and of the rationals above
zero. -/
theorem Float64.gt_zero_iff (x : Float64) :
    x.gt 0 = true ↔ (x = .posInf ∨ ∃ q, x = .finite q ∧ 0 < q) := by
  cases x <;> simp [Float64.gt]

/-- C7: the check constraints declared on the models accept a row exactly when
it satisfies the value invariants. A wallet passes iff its balance is at least
zero; a transaction passes iff its amount is above zero, its type is one of the
four type constants and its status is one of the four status constants. The
constraints declared are these and no others, and the values their lists admit
are exactly the exported constants. -/
theorem check_constraints_accept_iff :
    (∀ w : Wallet, passesChecks walletFields w.toRow = true ↔
        (w.Balance = .posInf ∨ ∃ q, w.Balance = .finite q ∧ 0 ≤ q))
      ∧ (∀ t : Transaction, passesChecks transactionFields t.toRow = true ↔
        ((t.Amount = .posInf ∨ ∃ q, t.Amount = .finite q ∧ 0 < q)
          ∧ t.Type_ ∈ [TransactionTypeTopup, TransactionTypeTransferOut,
              TransactionTypeTransferIn, TransactionTypePayment]
          ∧ t.Status ∈ [TransactionStatusPending, TransactionStatusCompleted,
              TransactionStatusFailed, TransactionStatusExpired]))
      ∧ checksOf walletFields = [.ge "balance" 0]
      ∧ checksOf transactionFields
        = [.isIn "type" [TransactionTypeTopup, TransactionTypeTransferOut,
              TransactionTypeTransferIn, TransactionTypePayment],
            .gt "amount" 0,
            .isIn "status" [TransactionStatusPending, TransactionStatusCompleted,
              TransactionStatusFailed, TransactionStatusExpired]] := by
  have hw : checksOf walletFields = [.ge "balance" 0] := by decide
  have ht : checksOf transactionFields
      = [.isIn "type" [TransactionTypeTopup, TransactionTypeTransferOut,
            TransactionTypeTransferIn, TransactionTypePayment],
          .gt "amount" 0,
          .isIn "status" [TransactionStatusPending, TransactionStatusCompleted,
            TransactionStatusFailed, TransactionStatusExpired]] := by decide
  refine ⟨?_, ?_, hw, ht⟩
  · intro w
    rw [← Float64.ge_zero_iff]
    simp [passesChecks, hw, CheckExpr.passes, Wallet.toRow]
  · intro t
    rw [← Float64.gt_zero_iff]
    simp only [passesChecks, ht, CheckExpr.passes, Transaction.toRow]
    simp
    tauto

/-! ## Properties of the events -/

/-- C8: the JSON object produced for an event has exactly the keys of the wire
contract, in declaration order, whatever the values of the fields: no key is
ever left out. An object is produced exactly when the timestamp is in the years
that encode and, for the transfer events, the amount is a number. -/
theorem event_json_keys :
    (∀ e : UserCreatedEvent, keysOf e.marshal =
        if e.Timestamp.encodable then
          some ["eventId", "eventType", "timestamp", "userId", "email", "name"]
        else none)
      ∧ (∀ e : TransferInitiatedEvent, keysOf e.marshal =
        if e.Timestamp.encodable && e.Amount.isFinite then
          some ["eventId", "eventType", "timestamp", "transactionId", "fromUserId",
            "toUserId", "amount"]
        else none)
      ∧ (∀ e : TransferCompletedEvent, keysOf e.marshal =
        if e.Timestamp.encodable && e.Amount.isFinite then
          some ["eventId", "eventType", "timestamp", "transactionId", "fromUserId",
            "toUserId", "amount"]
        else none)
      ∧ (∀ e : TransferFailedEvent, keysOf e.marshal =
        if e.Timestamp.encodable && e.Amount.isFinite then
          some ["eventId", "eventType", "timestamp", "transactionId", "fromUserId",
            "toUserId", "amount", "reason"]
        else none) := by
  refine ⟨?_, ?_, ?_, ?_⟩
  · intro e
    by_cases hy : 0 ≤ e.Timestamp.year ∧ e.Timestamp.year ≤ 9999
    · simp [UserCreatedEvent.marshal, UserCreatedEvent.fields, encodeFields, StructField.key,
        GoValue.encode, keysOf, Time.encodable, hy]
    · have hy2 : ¬ (0 ≤ e.Timestamp.year ∧ e.Timestamp.year ≤ 9999) := hy
      rw [not_and] at hy2
      simp [UserCreatedEvent.marshal, UserCreatedEvent.fields, encodeFields, StructField.key,
        GoValue.encode, keysOf, Time.encodable, hy, hy2]
  · intro e
    by_cases hy : 0 ≤ e.Timestamp.year ∧ e.Timestamp.year ≤ 9999
    · cases ha : e.Amount <;>
        simp [TransferInitiatedEvent.marshal, TransferInitiatedEvent.fields, encodeFields,
          StructField.key, GoValue.encode, keysOf, Time.encodable, Float64.isFinite, hy, ha]
    · have hy2 : ¬ (0 ≤ e.Timestamp.year ∧ e.Timestamp.year ≤ 9999) := hy
      rw [not_and] at hy2
      simp [TransferInitiatedEvent.marshal, TransferInitiatedEvent.fields, encodeFields,
        StructField.key, GoValue.encode, keysOf, Time.encodable, hy, hy2]
  · intro e
    by_cases hy : 0 ≤ e.Timestamp.year ∧ e.Timestamp.year ≤ 9999
    · cases ha : e.Amount <;>
        simp [TransferCompletedEvent.marshal, TransferCompletedEvent.fields, encodeFields,
          StructField.key, GoValue.encode, keysOf, Time.encodable, Float64.isFinite, hy, ha]
    · have hy2 : ¬ (0 ≤ e.Timestamp.year ∧ e.Timestamp.year ≤ 9999) := hy
      rw [not_and] at hy2
      simp [TransferCompletedEvent.marshal, TransferCompletedEvent.fields, encodeFields,
        StructField.key, GoValue.encode, keysOf, Time.encodable, hy, hy2]
  · intro e
    by_cases hy : 0 ≤ e.Timestamp.year ∧ e.Timestamp.year ≤ 9999
    · cases ha : e.Amount <;>
        simp [TransferFailedEvent.marshal, TransferFailedEvent.fields, encodeFields,
          StructField.key, GoValue.encode, keysOf, Time.encodable, Float64.isFinite, hy, ha]
    · have hy2 : ¬ (0 ≤ e.Timestamp.year ∧ e.Timestamp.year ≤ 9999) := hy
      rw [not_and] at hy2
      simp [TransferFailedEvent.marshal, TransferFailedEvent.fields, encodeFields,
        StructField.key, GoValue.encode, keysOf, Time.encodable, hy, hy2]

end Shared
